import Mathlib

/-!
# Adaptive Risk Questionnaire Engine — verification development

Shallow embedding of the adaptive questionnaire engine
(`question_bank.py`, `risk_calculator.py`, `questionnaire_service.py`).

Conventions of the embedding:
* Python floats are embedded as exact rationals (`ℚ`); all float literals in
  the source are decimal and are carried over verbatim.
* Dynamically typed Python response values are embedded as the inductive
  `Value`; Python `None` is `Value.none`.  Answer lists are lists of strings,
  which is the only list shape the question bank produces.
* Python exceptions raised while scoring (`AttributeError` from calling
  `.lower()` on a non-string, `TypeError` from ordering a non-number) are
  embedded with `Except PyErr`.
* Session persistence (Redis) is embedded by explicit state passing: the
  stored snapshot is the `Session` value a service function returns; when the
  function raises, no snapshot is written, which the embedding renders by
  returning only the error.
* Timestamps, session ids handed out by `uuid`, and the presentation-only
  `options` strings of questions are opaque to every algorithm treated here
  and are not modelled.
-/

namespace ECT

/-- Embedded Python runtime value for questionnaire answers. -/
inductive Value where
  | none
  | b (x : Bool)
  | num (x : ℚ)
  | s (x : String)
  | vlist (xs : List String)
deriving DecidableEq

/-- Numeric view of a value; Python treats `bool` as a subclass of `int`,
so both booleans and numbers satisfy `isinstance(x, (int, float))`. -/
def Value.toNumQ : Value → Option ℚ
  | .b x => some (if x then 1 else 0)
  | .num x => some x
  | _ => Option.none

/-- Python `==` on the values that occur in the engine: numbers and booleans
compare by numeric value (`True == 1`, `0 == False`), everything else
structurally, and values of unrelated types are unequal. -/
def pyEq (a b : Value) : Bool :=
  match a.toNumQ, b.toNumQ with
  | some x, some y => x == y
  | _, _ =>
    match a, b with
    | .none, .none => true
    | .s x, .s y => x == y
    | .vlist x, .vlist y => x == y
    | _, _ => false

/-- Python truthiness of a value. -/
def Value.truthy : Value → Bool
  | .none => false
  | .b x => x
  | .num x => !(x == 0)
  | .s x => !(x == "")
  | .vlist xs => !xs.isEmpty

/-- Whether the character list `needle` occurs as a prefix of `hay`. -/
def charsPrefixOf : List Char → List Char → Bool
  | [], _ => true
  | _ :: _, [] => false
  | a :: as, b :: bs => a == b && charsPrefixOf as bs

/-- Whether the character list `needle` occurs contiguously in `hay`. -/
def charsInfixOf (needle : List Char) : List Char → Bool
  | [] => needle.isEmpty
  | c :: rest => charsPrefixOf needle (c :: rest) || charsInfixOf needle rest

/-- Python substring test `needle in hay`. -/
def pySubstr (needle hay : String) : Bool :=
  charsInfixOf needle.data hay.data

/-- Python `str.lower()` on the ASCII strings of this code base, mapping
`Char.toLower` over the character list (the semantics of
`String.toLower`, reimplemented by structural recursion). -/
def strLower (s : String) : String :=
  String.mk (s.data.map Char.toLower)

/-- One response record, as handed to `record_response`: the payload is a
dict, so the `question_id` key may be missing (`Option.none`). -/
structure Response where
  question_id : Option String
  response : Value
deriving DecidableEq

/-- `{r.get("question_id"): r.get("response") for r in responses}` followed by
`.get(qid)`: the last response for a question id wins, and a missing key
yields Python `None`. -/
def responseMapGet (responses : List Response) (qid : String) : Value :=
  match responses.reverse.find? (fun r => r.question_id == some qid) with
  | some r => r.response
  | Option.none => Value.none

/-- Key membership `qid in response_map` (used by the dependency check). -/
def responseMapHas (responses : List Response) (qid : String) : Bool :=
  responses.any (fun r => r.question_id == some qid)

/-- A question definition from the question bank.  The presentation-only
`question_text`/`options` strings are not consumed by any function treated
here and are omitted; `validation_rules` is kept because claim C9 is about
it being ignored. -/
structure Question where
  question_id : String
  question_type : String
  validation_rules : List (String × ℚ) := []
  category : String
  priority_weight : ℚ
  genetic_associations : Option (List (String × ℚ)) := Option.none
  epigenetic_associations : Option (List (String × ℚ)) := Option.none
  skip_conditions : List (String × Value) := []
  follow_up_questions : List String := []
deriving DecidableEq

/-- The full question bank (`QuestionBank._initialize_questions`), in the
insertion order of the Python dict: demographics, family history, medical
history, lifestyle, environmental, symptoms, cancer-specific. -/
def questionBank : List Question := [
  { question_id := "demo_age", question_type := "numeric",
    validation_rules := [("min", 0), ("max", 120)],
    category := "demographics", priority_weight := 10.0,
    genetic_associations := some [("BRCA1", 0.2), ("BRCA2", 0.2), ("TP53", 0.3)],
    epigenetic_associations := some [("telomere_dysfunction", 0.4), ("oxidative_stress", 0.3)] },
  { question_id := "demo_gender", question_type := "multiple_choice",
    category := "demographics", priority_weight := 8.0,
    genetic_associations := some [("BRCA1", 0.4), ("BRCA2", 0.4), ("CDH1", 0.2)] },
  { question_id := "demo_ethnicity", question_type := "multi_select",
    category := "demographics", priority_weight := 7.0,
    genetic_associations := some [("BRCA1", 0.6), ("BRCA2", 0.6)] },
  { question_id := "family_cancer_history", question_type := "boolean",
    category := "family_history", priority_weight := 9.5,
    genetic_associations := some [("BRCA1", 0.8), ("BRCA2", 0.8), ("TP53", 0.7), ("MLH1", 0.6), ("MSH2", 0.6)],
    follow_up_questions := ["family_cancer_types", "family_cancer_relatives"] },
  { question_id := "family_cancer_types", question_type := "multi_select",
    category := "family_history", priority_weight := 9.0,
    skip_conditions := [("family_cancer_history", Value.b false)],
    genetic_associations := some [("BRCA1", 0.9), ("BRCA2", 0.8), ("MLH1", 0.7), ("MSH2", 0.7), ("APC", 0.6)] },
  { question_id := "family_cancer_relatives", question_type := "multi_select",
    category := "family_history", priority_weight := 8.5,
    skip_conditions := [("family_cancer_history", Value.b false)],
    genetic_associations := some [("BRCA1", 0.7), ("BRCA2", 0.7), ("TP53", 0.6)] },
  { question_id := "family_early_onset", question_type := "boolean",
    category := "family_history", priority_weight := 8.0,
    skip_conditions := [("family_cancer_history", Value.b false)],
    genetic_associations := some [("BRCA1", 0.8), ("BRCA2", 0.7), ("TP53", 0.9), ("MLH1", 0.6)] },
  { question_id := "family_multiple_cancers", question_type := "boolean",
    category := "family_history", priority_weight := 7.5,
    skip_conditions := [("family_cancer_history", Value.b false)],
    genetic_associations := some [("TP53", 0.9), ("BRCA1", 0.6), ("BRCA2", 0.6), ("MLH1", 0.7)] },
  { question_id := "personal_cancer_history", question_type := "boolean",
    category := "medical_history", priority_weight := 9.0,
    genetic_associations := some [("BRCA1", 0.6), ("BRCA2", 0.6), ("TP53", 0.8), ("MLH1", 0.5)],
    follow_up_questions := ["personal_cancer_type", "personal_cancer_age"] },
  { question_id := "personal_cancer_type", question_type := "multi_select",
    category := "medical_history", priority_weight := 8.5,
    skip_conditions := [("personal_cancer_history", Value.b false)],
    genetic_associations := some [("BRCA1", 0.8), ("BRCA2", 0.7), ("TP53", 0.9)] },
  { question_id := "personal_cancer_age", question_type := "numeric",
    validation_rules := [("min", 0), ("max", 100)],
    category := "medical_history", priority_weight := 8.0,
    skip_conditions := [("personal_cancer_history", Value.b false)],
    genetic_associations := some [("BRCA1", 0.7), ("BRCA2", 0.6), ("TP53", 0.8)] },
  { question_id := "previous_genetic_testing", question_type := "boolean",
    category := "medical_history", priority_weight := 6.0,
    follow_up_questions := ["genetic_testing_results"] },
  { question_id := "chronic_conditions", question_type := "multi_select",
    category := "medical_history", priority_weight := 5.0,
    epigenetic_associations := some [("inflammation_markers", 0.6), ("metabolic_dysfunction", 0.7), ("oxidative_stress", 0.5)] },
  { question_id := "lifestyle_smoking", question_type := "multiple_choice",
    category := "lifestyle", priority_weight := 8.0,
    epigenetic_associations := some [("dna_methylation_dysregulation", 0.8), ("oxidative_stress", 0.9), ("inflammation_markers", 0.7), ("telomere_dysfunction", 0.6)],
    follow_up_questions := ["smoking_duration", "smoking_amount"] },
  { question_id := "lifestyle_alcohol", question_type := "multiple_choice",
    category := "lifestyle", priority_weight := 7.0,
    epigenetic_associations := some [("dna_methylation_dysregulation", 0.6), ("oxidative_stress", 0.7), ("inflammation_markers", 0.5)],
    genetic_associations := some [("BRCA1", 0.3), ("BRCA2", 0.3)] },
  { question_id := "lifestyle_exercise", question_type := "multiple_choice",
    category := "lifestyle", priority_weight := 6.5,
    epigenetic_associations := some [("telomere_dysfunction", -0.4), ("inflammation_markers", -0.3), ("oxidative_stress", -0.2)] },
  { question_id := "lifestyle_sleep", question_type := "multiple_choice",
    category := "lifestyle", priority_weight := 5.5,
    epigenetic_associations := some [("telomere_dysfunction", 0.4), ("oxidative_stress", 0.3), ("inflammation_markers", 0.3)] },
  { question_id := "stress_level", question_type := "multiple_choice",
    category := "lifestyle", priority_weight := 6.0,
    epigenetic_associations := some [("telomere_dysfunction", 0.5), ("inflammation_markers", 0.6), ("oxidative_stress", 0.4)] },
  { question_id := "environmental_exposures", question_type := "multi_select",
    category := "environmental", priority_weight := 6.5,
    epigenetic_associations := some [("dna_methylation_dysregulation", 0.6), ("oxidative_stress", 0.8), ("inflammation_markers", 0.5)],
    genetic_associations := some [("TP53", 0.4), ("BRCA1", 0.2), ("BRCA2", 0.2)] },
  { question_id := "occupational_history", question_type := "multi_select",
    category := "environmental", priority_weight := 5.0,
    epigenetic_associations := some [("oxidative_stress", 0.4), ("inflammation_markers", 0.3)] },
  { question_id := "current_symptoms", question_type := "multi_select",
    category := "symptoms", priority_weight := 7.5,
    genetic_associations := some [("TP53", 0.4), ("BRCA1", 0.3), ("BRCA2", 0.3), ("MLH1", 0.3), ("APC", 0.3)] },
  { question_id := "reproductive_history", question_type := "multi_select",
    category := "reproductive", priority_weight := 6.0,
    genetic_associations := some [("BRCA1", 0.4), ("BRCA2", 0.4)],
    epigenetic_associations := some [("dna_methylation_dysregulation", 0.3)] },
  { question_id := "diet_quality", question_type := "multiple_choice",
    category := "diet", priority_weight := 6.5,
    epigenetic_associations := some [("dna_methylation_dysregulation", 0.5), ("inflammation_markers", 0.6), ("oxidative_stress", 0.4), ("metabolic_dysfunction", 0.7)] }
]

/-- `QuestionBank.get_question`: dict lookup by id. -/
def getQuestion (qid : String) : Option Question :=
  questionBank.find? (fun q => q.question_id == qid)

/-- The `family_cancer_types` bank entry, named for the proofs about the
family-history boost (identical to the entry in `questionBank`). -/
def familyCancerTypesQuestion : Question :=
  { question_id := "family_cancer_types", question_type := "multi_select",
    category := "family_history", priority_weight := 9.0,
    skip_conditions := [("family_cancer_history", Value.b false)],
    genetic_associations := some [("BRCA1", 0.9), ("BRCA2", 0.8), ("MLH1", 0.7), ("MSH2", 0.7), ("APC", 0.6)] }

/-- The `family_cancer_relatives` bank entry. -/
def familyCancerRelativesQuestion : Question :=
  { question_id := "family_cancer_relatives", question_type := "multi_select",
    category := "family_history", priority_weight := 8.5,
    skip_conditions := [("family_cancer_history", Value.b false)],
    genetic_associations := some [("BRCA1", 0.7), ("BRCA2", 0.7), ("TP53", 0.6)] }

/-- The `family_early_onset` bank entry. -/
def familyEarlyOnsetQuestion : Question :=
  { question_id := "family_early_onset", question_type := "boolean",
    category := "family_history", priority_weight := 8.0,
    skip_conditions := [("family_cancer_history", Value.b false)],
    genetic_associations := some [("BRCA1", 0.8), ("BRCA2", 0.7), ("TP53", 0.9), ("MLH1", 0.6)] }

/-- `QuestionBank._initialize_dependencies`, read through `.get(qid, [])`. -/
def questionDependencies (qid : String) : List String :=
  if qid == "family_cancer_types" then ["family_cancer_history"]
  else if qid == "family_cancer_relatives" then ["family_cancer_history"]
  else if qid == "family_early_onset" then ["family_cancer_history"]
  else if qid == "personal_cancer_type" then ["personal_cancer_history"]
  else if qid == "personal_cancer_age" then ["personal_cancer_history"]
  else if qid == "genetic_testing_results" then ["previous_genetic_testing"]
  else []

/-- `QuestionBank.get_initial_questions`. -/
def getInitialQuestions (questionnaire_type : String) : List String :=
  if questionnaire_type == "genetic_screening" then
    ["demo_age", "demo_gender", "demo_ethnicity", "family_cancer_history", "personal_cancer_history"]
  else if questionnaire_type == "epigenetic_assessment" then
    ["demo_age", "lifestyle_smoking", "lifestyle_alcohol", "diet_quality", "stress_level"]
  else if questionnaire_type == "comprehensive_assessment" then
    ["demo_age", "demo_gender", "demo_ethnicity", "family_cancer_history", "lifestyle_smoking"]
  else []

/-- `QuestionBank.estimate_total_questions` (dict lookup with default 10). -/
def estimateTotalQuestions (questionnaire_type : String) : ℕ :=
  if questionnaire_type == "genetic_screening" then 15
  else if questionnaire_type == "epigenetic_assessment" then 12
  else if questionnaire_type == "comprehensive_assessment" then 25
  else 10

/-- `QuestionBank._is_question_relevant`.  Note the source tests
`question.get("genetic_associations") is not None`, i.e. presence, not
non-emptiness. -/
def isQuestionRelevant (q : Question) (questionnaire_type : String) : Bool :=
  if questionnaire_type == "comprehensive_assessment" then true
  else if questionnaire_type == "genetic_screening" then
    q.genetic_associations.isSome ||
      (["demographics", "family_history", "medical_history"].contains q.category)
  else if questionnaire_type == "epigenetic_assessment" then
    q.epigenetic_associations.isSome ||
      (["lifestyle", "environmental", "diet"].contains q.category)
  else true

/-- `QuestionBank._check_dependencies`: every prerequisite id must be a key
of the response map. -/
def checkDependencies (qid : String) (responses : List Response) : Bool :=
  (questionDependencies qid).all (fun dep => responseMapHas responses dep)

/-- `QuestionBank._should_skip_question`: skip iff some condition pair
equals the recorded answer under Python `==` (an absent answer is `None`
and never equals `False`). -/
def shouldSkipQuestion (q : Question) (responses : List Response) : Bool :=
  q.skip_conditions.any (fun c => pyEq (responseMapGet responses c.1) c.2)

/-- The filter applied by `QuestionBank._find_candidate_questions` to each
bank entry: not asked, relevant, dependencies met, not skipped. -/
def candidatePred (questionnaire_type : String) (responses : List Response)
    (question_path : List String) (q : Question) : Bool :=
  !(question_path.contains q.question_id) &&
  isQuestionRelevant q questionnaire_type &&
  checkDependencies q.question_id responses &&
  !(shouldSkipQuestion q responses)

/-- `QuestionBank._find_candidate_questions`, iterating the bank in dict
insertion order. -/
def findCandidateQuestions (questionnaire_type : String) (responses : List Response)
    (question_path : List String) : List String :=
  (questionBank.filter (candidatePred questionnaire_type responses question_path)).map
    Question.question_id

/-- Boost condition truthiness: `if question.get("genetic_associations"):`
requires a present, non-empty association dict. -/
def hasGeneticAssociations (q : Question) : Bool :=
  !((q.genetic_associations.getD []).isEmpty)

/-- `QuestionBank._calculate_relevance_boost`.  `is True` is identity with
the boolean `True`; list membership for the smoking answer is string
equality. -/
def calculateRelevanceBoost (q : Question) (responses : List Response) : ℚ :=
  (if responseMapGet responses "family_cancer_history" == Value.b true &&
      q.category == "family_history" then 2.0 else 0)
  + (if (responseMapGet responses "lifestyle_smoking" == Value.s "Current smoker" ||
         responseMapGet responses "lifestyle_smoking" == Value.s "Former smoker") &&
        (q.category == "lifestyle" || q.category == "environmental") then 1.5 else 0)
  + (if responseMapGet responses "personal_cancer_history" == Value.b true &&
        hasGeneticAssociations q then 2.5 else 0)

/-- Score of a candidate: `priority_weight` (default 1.0) plus boost.  The
source indexes `self.questions[question_id]`, which always succeeds for ids
produced by the candidate filter; unknown ids score 0 here and would raise
`KeyError` in the source. -/
def scoreQuestion (qid : String) (responses : List Response) : ℚ :=
  match getQuestion qid with
  | some q => q.priority_weight + calculateRelevanceBoost q responses
  | Option.none => 0

/-- Stable insertion for a descending sort: an element moves past strictly
greater keys only, so equal keys keep their original order, matching
Python's stable `list.sort(key=..., reverse=True)`. -/
def insertByKeyDesc {α : Type} (key : α → ℚ) (x : α) : List α → List α
  | [] => [x]
  | y :: ys => if key x < key y then y :: insertByKeyDesc key x ys else x :: y :: ys

/-- Stable descending sort by a rational key. -/
def sortByKeyDesc {α : Type} (key : α → ℚ) : List α → List α
  | [] => []
  | x :: xs => insertByKeyDesc key x (sortByKeyDesc key xs)

/-- Python `max(l, key=key)` (first maximal element), `none` on the empty
list. -/
def pyMaxBy {α : Type} (key : α → ℚ) : List α → Option α
  | [] => Option.none
  | x :: xs =>
    match pyMaxBy key xs with
    | Option.none => some x
    | some m => if key x < key m then some m else some x

/-- `QuestionBank._select_next_question`: score candidates, stable-sort
descending, return the head. -/
def selectNextQuestion (candidates : List String) (responses : List Response) :
    Option String :=
  match candidates with
  | [] => Option.none
  | _ =>
    ((sortByKeyDesc (fun p => p.2)
        (candidates.map (fun qid => (qid, scoreQuestion qid responses)))).head?).map
      Prod.fst

/-- `QuestionBank.get_next_question`: find candidates, return `None` when
none remain, otherwise select the best one. -/
def getNextQuestionId (questionnaire_type : String) (responses : List Response)
    (question_path : List String) : Option String :=
  match findCandidateQuestions questionnaire_type responses question_path with
  | [] => Option.none
  | c => selectNextQuestion c responses

/-! ## Risk calculator (`risk_calculator.py`) -/

/-- A Python runtime exception escaping the risk calculator:
`AttributeError` from `.lower()` on a non-string, `TypeError` from ordering
a non-number. -/
inductive PyErr where
  | attributeError
  | typeError
deriving DecidableEq

/-- The `.lower()` method call on a dynamic value. -/
def pyLowerStr (v : Value) : Except PyErr String :=
  match v with
  | .s x => .ok (strLower x)
  | _ => .error .attributeError

/-- `d.get(key, "").lower()` for an optional dynamic field. -/
def getOrEmptyLower (v : Option Value) : Except PyErr String :=
  match v with
  | Option.none => .ok ""
  | some x => pyLowerStr x

/-- Python `value < bound` for a dynamic value against a number
(booleans order as 0/1, anything else raises `TypeError`). -/
def pyLtNum (v : Value) (bound : ℚ) : Except PyErr Bool :=
  match v.toNumQ with
  | some x => .ok (decide (x < bound))
  | Option.none => .error .typeError

/-- Association-list lookup, the embedding of a Python dict `get`. -/
def lookupAssoc {α : Type} (table : List (String × α)) (k : String) : Option α :=
  (table.find? (fun p => p.1 == k)).map Prod.snd

/-- `response.get("question_id", "")` as used by all extractors. -/
def rqidOrEmpty (r : Response) : String :=
  r.question_id.getD ""

/-- `GeneticRiskCalculator._initialize_genetic_priors`. -/
def geneticPriors : List (String × ℚ) := [
  ("BRCA1", 0.0024), ("BRCA2", 0.0020), ("TP53", 0.000020), ("APC", 0.0001),
  ("MLH1", 0.00035), ("MSH2", 0.00035), ("MSH6", 0.00020), ("PMS2", 0.00015),
  ("CHEK2", 0.01), ("ATM", 0.0025), ("PALB2", 0.0024), ("RAD51C", 0.0005),
  ("RAD51D", 0.0005), ("BRIP1", 0.0005), ("CDH1", 0.00002), ("PTEN", 0.00002),
  ("STK11", 0.00002), ("VHL", 0.00004), ("RET", 0.00002), ("NF1", 0.0003),
  ("NF2", 0.00003), ("TSC1", 0.00001), ("TSC2", 0.00002)
]

/-- `GeneticRiskCalculator._initialize_symptom_associations`. -/
def symptomGeneAssociations : List (String × List (String × ℚ)) := [
  ("breast_cancer_family",
    [("BRCA1", 0.8), ("BRCA2", 0.7), ("TP53", 0.4), ("CHEK2", 0.3), ("ATM", 0.25), ("PALB2", 0.6)]),
  ("ovarian_cancer_family",
    [("BRCA1", 0.9), ("BRCA2", 0.6), ("RAD51C", 0.5), ("RAD51D", 0.5), ("BRIP1", 0.4)]),
  ("colorectal_cancer_family",
    [("APC", 0.7), ("MLH1", 0.8), ("MSH2", 0.8), ("MSH6", 0.6), ("PMS2", 0.5)]),
  ("early_onset_cancer",
    [("TP53", 0.6), ("BRCA1", 0.5), ("BRCA2", 0.4), ("CHEK2", 0.3)]),
  ("multiple_primary_cancers",
    [("TP53", 0.8), ("BRCA1", 0.4), ("BRCA2", 0.4), ("MLH1", 0.5), ("MSH2", 0.5)]),
  ("male_breast_cancer",
    [("BRCA2", 0.8), ("BRCA1", 0.2), ("CHEK2", 0.3), ("PALB2", 0.4)]),
  ("pancreatic_cancer_family",
    [("BRCA2", 0.6), ("ATM", 0.4), ("PALB2", 0.5), ("CDKN2A", 0.3)]),
  ("gastric_cancer_family",
    [("CDH1", 0.8), ("APC", 0.2), ("MLH1", 0.3), ("MSH2", 0.3)])
]

/-- `GeneticRiskCalculator._initialize_family_history_weights`; the table is
built by the constructor but never read by any calculation. -/
def familyHistoryWeights : List (String × ℚ) := [
  ("first_degree_affected", 3.0), ("second_degree_affected", 1.5),
  ("third_degree_affected", 1.2), ("multiple_affected", 2.5),
  ("early_onset", 2.0), ("bilateral_cancer", 3.5), ("multiple_primary", 4.0),
  ("ashkenazi_jewish", 1.8), ("male_breast_cancer", 5.0)
]

/-- The 23 genes iterated by `calculate_genetic_risks`. -/
def highRiskGenes : List String := [
  "BRCA1", "BRCA2", "TP53", "APC", "MLH1", "MSH2", "MSH6", "PMS2",
  "CHEK2", "ATM", "PALB2", "RAD51C", "RAD51D", "BRIP1", "CDH1",
  "PTEN", "STK11", "VHL", "RET", "NF1", "NF2", "TSC1", "TSC2"
]

/-- Accumulated family-history evidence (`_extract_family_history`). -/
structure FamilyHistory where
  cancer_types : List String := []
  affected_relatives : List String := []
  age_at_diagnosis : List ℚ := []
  patterns : List String := []
deriving DecidableEq

/-- The per-response accumulation loop of `_extract_family_history`.
An id containing both "family" and "cancer" feeds `cancer_types` (so the
`family_cancer_relatives` answers land there, shadowing the `relative`
branch); numeric answers (including booleans, which Python counts as ints)
with "age" and "diagnosis" in the id feed `age_at_diagnosis`. -/
def extractFamilyHistoryBase (responses : List Response) : FamilyHistory :=
  responses.foldl (fun fh r =>
    let qid := strLower (rqidOrEmpty r)
    if pySubstr "family" qid && pySubstr "cancer" qid then
      match r.response with
      | .s x => { fh with cancer_types := fh.cancer_types ++ [strLower x] }
      | .vlist xs => { fh with cancer_types := fh.cancer_types ++ xs.map strLower }
      | _ => fh
    else if pySubstr "relative" qid then
      match r.response with
      | .s x => { fh with affected_relatives := fh.affected_relatives ++ [strLower x] }
      | .vlist xs => { fh with affected_relatives := fh.affected_relatives ++ xs.map strLower }
      | _ => fh
    else if pySubstr "age" qid && pySubstr "diagnosis" qid then
      match r.response.toNumQ with
      | some q => { fh with age_at_diagnosis := fh.age_at_diagnosis ++ [q] }
      | Option.none => fh
    else fh) {}

/-- `_extract_family_history`: accumulation followed by exact-string pattern
detection (`"breast" in cancer_types` is list membership of the literal
word, not a substring test). -/
def extractFamilyHistory (responses : List Response) : FamilyHistory :=
  let fh := extractFamilyHistoryBase responses
  let p0 := if fh.cancer_types.contains "breast" then ["breast_cancer_family"] else []
  let p1 := p0 ++ (if fh.cancer_types.contains "ovarian" then ["ovarian_cancer_family"] else [])
  let p2 := p1 ++
    (if fh.cancer_types.contains "colorectal" || fh.cancer_types.contains "colon" then
      ["colorectal_cancer_family"] else [])
  let p3 := p2 ++
    (if fh.age_at_diagnosis.any (fun a => decide (a < 50)) then ["early_onset_cancer"] else [])
  let p4 := p3 ++
    (if 2 < fh.cancer_types.length then ["multiple_primary_cancers"] else [])
  { fh with patterns := p4 }

/-- `_extract_symptoms`. -/
def extractSymptoms (responses : List Response) : List String :=
  responses.foldl (fun acc r =>
    let qid := strLower (rqidOrEmpty r)
    if pySubstr "symptom" qid || pySubstr "sign" qid then
      match r.response with
      | .s x => if strLower x != "none" then acc ++ [strLower x] else acc
      | .vlist xs => acc ++ ((xs.filter (fun e => strLower e != "none")).map String.toLower)
      | _ => acc
    else acc) []

/-- Demographic answers (`_extract_demographics`); fields hold the raw
dynamic values from the responses, a missing field is an absent dict key. -/
structure Demographics where
  age : Option Value := Option.none
  gender : Option Value := Option.none
  ethnicity : Option Value := Option.none
deriving DecidableEq

/-- `_extract_demographics`: substring dispatch on the question id ("age"
also matches `personal_cancer_age`, whose answer then overwrites the
demographic age). -/
def extractDemographics (responses : List Response) : Demographics :=
  responses.foldl (fun d r =>
    let qid := strLower (rqidOrEmpty r)
    if pySubstr "age" qid then { d with age := some r.response }
    else if pySubstr "gender" qid || pySubstr "sex" qid then { d with gender := some r.response }
    else if pySubstr "ethnicity" qid || pySubstr "ancestry" qid then { d with ethnicity := some r.response }
    else d) {}

/-- Personal medical history (`_extract_medical_history`); the
`medications`/`chronic_conditions` entries of the source dict are
initialized but never written or read and are omitted. -/
structure MedicalHistory where
  previous_cancers : List String := []
  surgeries : List String := []
deriving DecidableEq

/-- `_extract_medical_history`.  Note no question id of the bank contains
both "previous" and "cancer", so `previous_cancers` stays empty for
bank-generated responses. -/
def extractMedicalHistory (responses : List Response) : MedicalHistory :=
  responses.foldl (fun mh r =>
    let qid := strLower (rqidOrEmpty r)
    if pySubstr "previous" qid && pySubstr "cancer" qid then
      match r.response with
      | .s x => if strLower x != "none" then { mh with previous_cancers := mh.previous_cancers ++ [strLower x] } else mh
      | .vlist xs => { mh with previous_cancers := mh.previous_cancers ++ xs.map strLower }
      | _ => mh
    else if pySubstr "surgery" qid then
      match r.response with
      | .s x => if strLower x != "none" then { mh with surgeries := mh.surgeries ++ [strLower x] } else mh
      | .vlist xs => { mh with surgeries := mh.surgeries ++ xs.map strLower }
      | _ => mh
    else mh) {}

/-- `_calculate_family_history_likelihood`: one factor `1 + w` per matched
pattern with positive gene weight, scaled by `1 + 0.3 n` when at least two
relatives are named. -/
def calculateFamilyHistoryLikelihood (gene : String) (fh : FamilyHistory) : ℚ :=
  let l0 := fh.patterns.foldl (fun acc pat =>
    match lookupAssoc symptomGeneAssociations pat with
    | some tbl =>
      match lookupAssoc tbl gene with
      | some w => if 0 < w then acc * (1 + w) else acc
      | Option.none => acc
    | Option.none => acc) 1
  if fh.affected_relatives.isEmpty then l0
  else
    let n : ℚ := fh.affected_relatives.length
    if 2 ≤ fh.affected_relatives.length then l0 * (1 + n * 0.3) else l0

/-- `_calculate_demographic_likelihood`.  The age branch mirrors Python
short-circuiting: the comparison (which may raise `TypeError`) is evaluated
only when the gene guard passed; the ethnicity/gender strings go through
`.lower()`, which raises `AttributeError` on the multi-select list answer
the bank produces for `demo_ethnicity`. -/
def calculateDemographicLikelihood (gene : String) (d : Demographics) :
    Except PyErr ℚ := do
  let ageFactor : ℚ ←
    if (d.age.map Value.truthy).getD false then
      if gene == "BRCA1" || gene == "BRCA2" then do
        let lt ← pyLtNum (d.age.getD Value.none) 50
        pure (if lt then (1.5 : ℚ) else 1)
      else if gene == "TP53" then do
        let lt ← pyLtNum (d.age.getD Value.none) 30
        pure (if lt then (2.0 : ℚ) else 1)
      else pure 1
    else pure 1
  let eth ← getOrEmptyLower d.ethnicity
  let ethFactor : ℚ :=
    if pySubstr "ashkenazi" eth && (gene == "BRCA1" || gene == "BRCA2") then 1.8 else 1
  let gen ← getOrEmptyLower d.gender
  let genderFactor : ℚ := if gen == "male" && gene == "BRCA2" then 1.3 else 1
  pure (1 * ageFactor * ethFactor * genderFactor)

/-- The keyword list of `_calculate_symptom_likelihood`. -/
def cancerRelatedSymptoms : List String :=
  ["unexplained_weight_loss", "fatigue", "pain", "lumps", "bleeding"]

/-- `_calculate_symptom_likelihood` (the gene argument is unused, as in the
source). -/
def calculateSymptomLikelihood (gene : String) (symptoms : List String) : ℚ :=
  let cnt := (symptoms.filter
    (fun sym => cancerRelatedSymptoms.any (fun k => pySubstr k sym))).length
  if 0 < cnt then 1 * (1 + (cnt : ℚ) * 0.2) else 1

/-- `_calculate_medical_history_likelihood`. -/
def calculateMedicalHistoryLikelihood (gene : String) (mh : MedicalHistory) : ℚ :=
  let l1 : ℚ := if mh.previous_cancers.isEmpty then 1 else 1 * 1.8
  if 1 < mh.previous_cancers.length then l1 * 2.5 else l1

/-- `_bayesian_update`.  The source combines in log space
(`log_odds = ln(prior/(1-prior)) + Σ ln lᵢ` over the likelihoods `lᵢ > 0`,
then converts back); over exact arithmetic that equals the odds product
below, which is the faithful real-number semantics of the float code. -/
def bayesianUpdate (prior : ℚ) (likelihoods : List ℚ) : ℚ :=
  let odds := (prior / (1 - prior)) *
    (likelihoods.foldl (fun acc l => if 0 < l then acc * l else acc) 1)
  odds / (1 + odds)

/-- `_calculate_confidence_interval`: ±10 % of the point estimate, clamped
into [0.001, 0.999]. -/
def calculateConfidenceInterval (probability : ℚ) : ℚ × ℚ :=
  let margin := 0.1 * probability
  (max 0.001 (probability - margin), min 0.999 (probability + margin))

/-- `_determine_evidence_strength` over the four likelihood ratios. -/
def determineEvidenceStrength (l1 l2 l3 l4 : ℚ) : String :=
  let m := max (max l1 l2) (max l3 l4)
  if 3.0 < m then "very_high"
  else if 2.0 < m then "high"
  else if 1.5 < m then "moderate"
  else "low"

/-- `_generate_clinical_significance`. -/
def generateClinicalSignificance (gene : String) (probability : ℚ) : String :=
  if 0.3 < probability then
    "High probability of " ++ gene ++ " mutation warrants immediate genetic counseling"
  else if 0.1 < probability then
    "Moderate probability of " ++ gene ++ " mutation suggests consideration of genetic testing"
  else if 0.05 < probability then
    "Low-moderate probability of " ++ gene ++ " mutation may warrant discussion with genetic counselor"
  else
    "Low probability of " ++ gene ++ " mutation based on current information"

/-- `_recommend_genetic_testing`. -/
def recommendGeneticTesting (gene : String) (probability : ℚ) : List String :=
  if 0.3 < probability then
    ["Urgent genetic counseling for " ++ gene ++ " testing",
     "Multi-gene panel testing including high-risk genes",
     "Family cascade testing if positive"]
  else if 0.1 < probability then
    ["Genetic counseling to discuss " ++ gene ++ " testing",
     "Consider single-gene or targeted panel testing"]
  else if 0.05 < probability then
    ["Discussion with genetic counselor about " ++ gene ++ " risk",
     "Consider testing based on additional clinical factors"]
  else []

/-- A gene risk record (`GeneticRisk` dataclass; `calculate_genetic_risks`
returns the same fields as a dict). -/
structure GeneticRisk where
  gene_symbol : String
  mutation_probability : ℚ
  confidence_interval : ℚ × ℚ
  evidence_strength : String
  clinical_significance : String
  recommended_testing : List String
deriving DecidableEq

/-- `_calculate_gene_specific_risk`: prior (default 0.001), the four
likelihood ratios, Bayesian combination, interval from the unclamped
posterior, and the reported probability clamped to [0.001, 0.99]. -/
def calculateGeneSpecificRisk (gene : String) (fh : FamilyHistory)
    (symptoms : List String) (demo : Demographics) (med : MedicalHistory) :
    Except PyErr GeneticRisk := do
  let prior := (lookupAssoc geneticPriors gene).getD 0.001
  let familyLikelihood := calculateFamilyHistoryLikelihood gene fh
  let demoLikelihood ← calculateDemographicLikelihood gene demo
  let symptomLikelihood := calculateSymptomLikelihood gene symptoms
  let medicalLikelihood := calculateMedicalHistoryLikelihood gene med
  let posterior := bayesianUpdate prior
    [familyLikelihood, demoLikelihood, symptomLikelihood, medicalLikelihood]
  pure {
    gene_symbol := gene,
    mutation_probability := min 0.99 (max 0.001 posterior),
    confidence_interval := calculateConfidenceInterval posterior,
    evidence_strength := determineEvidenceStrength familyLikelihood demoLikelihood
      symptomLikelihood medicalLikelihood,
    clinical_significance := generateClinicalSignificance gene posterior,
    recommended_testing := recommendGeneticTesting gene posterior }

/-- `calculate_genetic_risks`: extract the four evidence sources, score
the 23 genes, keep probabilities above 0.05, sort descending (stable) and
return the top 10. -/
def calculateGeneticRisks (responses : List Response) :
    Except PyErr (List GeneticRisk) := do
  let fh := extractFamilyHistory responses
  let symptoms := extractSymptoms responses
  let demo := extractDemographics responses
  let med := extractMedicalHistory responses
  let risksAll ← highRiskGenes.mapM (fun g => calculateGeneSpecificRisk g fh symptoms demo med)
  let surfaced := risksAll.filter (fun r => decide ((0.05 : ℚ) < r.mutation_probability))
  pure ((sortByKeyDesc (fun r => r.mutation_probability) surfaced).take 10)

/-! ### Epigenetic factor risks -/

/-- Per-factor base data (`_initialize_epigenetic_factors`). -/
structure FactorInfo where
  base_risk : ℚ
  modifiable : Bool
  lifestyle_impact : ℚ
deriving DecidableEq

/-- `GeneticRiskCalculator._initialize_epigenetic_factors`. -/
def epigeneticFactorTable : List (String × FactorInfo) := [
  ("dna_methylation_patterns", { base_risk := 0.15, modifiable := true, lifestyle_impact := 0.4 }),
  ("histone_modification_patterns", { base_risk := 0.12, modifiable := true, lifestyle_impact := 0.3 }),
  ("microrna_expression_patterns", { base_risk := 0.18, modifiable := true, lifestyle_impact := 0.35 }),
  ("chromatin_accessibility_patterns", { base_risk := 0.08, modifiable := false, lifestyle_impact := 0.1 }),
  ("telomere_health_markers", { base_risk := 0.25, modifiable := true, lifestyle_impact := 0.6 }),
  ("cellular_stress_indicators", { base_risk := 0.45, modifiable := true, lifestyle_impact := 0.8 }),
  ("inflammation_response_markers", { base_risk := 0.35, modifiable := true, lifestyle_impact := 0.7 }),
  ("metabolic_regulation_patterns", { base_risk := 0.30, modifiable := true, lifestyle_impact := 0.75 })
]

/-- The 8 factors iterated by `calculate_epigenetic_risks`. -/
def factorsToAssess : List String := [
  "dna_methylation_patterns", "histone_modification_patterns",
  "microrna_expression_patterns", "chromatin_accessibility_patterns",
  "telomere_health_markers", "cellular_stress_indicators",
  "inflammation_response_markers", "metabolic_regulation_patterns"
]

/-- Lifestyle factors (`_extract_lifestyle_factors`): `smoking` is coerced
to a boolean, the other fields hold the raw dynamic answers with the
source's string defaults. -/
structure Lifestyle where
  smoking : Bool := false
  alcohol_consumption : Value := .s "none"
  exercise_frequency : Value := .s "none"
  diet_quality : Value := .s "average"
  sleep_quality : Value := .s "average"
  stress_level : Value := .s "moderate"
deriving DecidableEq

/-- `_extract_lifestyle_factors`: substring dispatch on question ids; for
"smoking" ids a non-boolean answer goes through `.lower() == "yes"` (so the
bank's multiple-choice smoking answers always coerce to `False`, and a
non-string raises `AttributeError`). -/
def extractLifestyleFactors (responses : List Response) : Except PyErr Lifestyle :=
  responses.foldlM (fun l r => do
    let qid := strLower (rqidOrEmpty r)
    if pySubstr "smoking" qid then
      match r.response with
      | .b x => pure { l with smoking := x }
      | v => do
        let sv ← pyLowerStr v
        pure { l with smoking := sv == "yes" }
    else if pySubstr "alcohol" qid then pure { l with alcohol_consumption := r.response }
    else if pySubstr "exercise" qid then pure { l with exercise_frequency := r.response }
    else if pySubstr "diet" qid then pure { l with diet_quality := r.response }
    else if pySubstr "sleep" qid then pure { l with sleep_quality := r.response }
    else if pySubstr "stress" qid then pure { l with stress_level := r.response }
    else pure l) {}

/-- `_extract_environmental_exposures`: lower-cased answers from ids
containing "exposure" or "environmental", dropping the exact string
"none" (the option "None of the above" lowers to "none of the above" and
is kept). -/
def extractEnvironmentalExposures (responses : List Response) : List String :=
  responses.foldl (fun acc r =>
    let qid := strLower (rqidOrEmpty r)
    if pySubstr "exposure" qid || pySubstr "environmental" qid then
      match r.response with
      | .s x => if strLower x != "none" then acc ++ [strLower x] else acc
      | .vlist xs => acc ++ ((xs.filter (fun e => strLower e != "none")).map String.toLower)
      | _ => acc
    else acc) []

/-- Dietary patterns (`_extract_dietary_patterns`), raw values with the
source's "moderate" defaults. -/
structure DietaryPatterns where
  processed_food_frequency : Value := .s "moderate"
  vegetable_intake : Value := .s "moderate"
  fruit_intake : Value := .s "moderate"
  whole_grain_consumption : Value := .s "moderate"
  red_meat_consumption : Value := .s "moderate"
deriving DecidableEq

/-- `_extract_dietary_patterns`. -/
def extractDietaryPatterns (responses : List Response) : DietaryPatterns :=
  responses.foldl (fun d r =>
    let qid := strLower (rqidOrEmpty r)
    if pySubstr "processed" qid && pySubstr "food" qid then
      { d with processed_food_frequency := r.response }
    else if pySubstr "vegetable" qid then { d with vegetable_intake := r.response }
    else if pySubstr "fruit" qid then { d with fruit_intake := r.response }
    else if pySubstr "grain" qid then { d with whole_grain_consumption := r.response }
    else if pySubstr "meat" qid then { d with red_meat_consumption := r.response }
    else d) {}

/-- Stress factors (`_extract_stress_factors`). -/
structure StressFactors where
  chronic_stress : Bool := false
  major_life_events : List String := []
  mental_health_history : Value := .s "none"
  social_support : Value := .s "adequate"
deriving DecidableEq

/-- `_extract_stress_factors`: a non-boolean answer to a "stress" id goes
through `.lower() in ["yes", "high", "severe"]`. -/
def extractStressFactors (responses : List Response) : Except PyErr StressFactors :=
  responses.foldlM (fun sf r => do
    let qid := strLower (rqidOrEmpty r)
    if pySubstr "stress" qid then
      match r.response with
      | .b x => pure { sf with chronic_stress := x }
      | v => do
        let sv ← pyLowerStr v
        pure { sf with chronic_stress := sv == "yes" || sv == "high" || sv == "severe" }
    else if pySubstr "life_event" qid then
      match r.response with
      | .vlist xs => pure { sf with major_life_events := xs }
      | _ => pure sf
    else if pySubstr "mental_health" qid then pure { sf with mental_health_history := r.response }
    else if pySubstr "support" qid then pure { sf with social_support := r.response }
    else pure sf) {}

/-- `_calculate_lifestyle_modifier`: the additive lifestyle score; every
branch keys on `.lower()` of the stored value and exact membership in the
source's keyword lists. -/
def calculateLifestyleModifier (l : Lifestyle) (d : DietaryPatterns)
    (s : StressFactors) : Except PyErr ℚ := do
  let m0 : ℚ := if l.smoking then 0.4 else 0
  let alcohol ← pyLowerStr l.alcohol_consumption
  let m1 := if alcohol == "heavy" || alcohol == "daily" || alcohol == "excessive" then m0 + 0.3
    else if alcohol == "moderate" || alcohol == "weekly" then m0 + 0.1
    else m0
  let exercise ← pyLowerStr l.exercise_frequency
  let m2 := if exercise == "daily" || exercise == "5+ times per week" then m1 - 0.2
    else if exercise == "regular" || exercise == "3-4 times per week" then m1 - 0.1
    else m1
  let diet ← pyLowerStr l.diet_quality
  let m3 := if diet == "excellent" || diet == "very good" then m2 - 0.15
    else if diet == "poor" || diet == "very poor" then m2 + 0.2
    else m2
  let sleep ← pyLowerStr l.sleep_quality
  let m4 := if sleep == "poor" || sleep == "very poor" then m3 + 0.15 else m3
  let stress ← pyLowerStr l.stress_level
  let m5 := if stress == "high" || stress == "severe" || stress == "chronic" then m4 + 0.25 else m4
  let pf ← pyLowerStr d.processed_food_frequency
  let m6 := if pf == "high" || pf == "daily" then m5 + 0.15 else m5
  let veg ← pyLowerStr d.vegetable_intake
  let m7 := if veg == "high" || veg == "daily" then m6 - 0.1 else m6
  pure (if s.chronic_stress then m7 + 0.2 else m7)

/-- Keyword lists of `_calculate_environmental_modifier`; the multi-word
keywords carry underscores while the question options use spaces. -/
def highRiskExposureKeywords : List String :=
  ["asbestos", "radiation", "benzene", "formaldehyde",
   "pesticides", "heavy_metals", "industrial_chemicals"]

/-- Moderate-risk keyword list of `_calculate_environmental_modifier`. -/
def moderateRiskExposureKeywords : List String :=
  ["air_pollution", "secondhand_smoke", "occupational_dust"]

/-- `_calculate_environmental_modifier`: +0.3 per exposure containing a
high-risk keyword as a substring, else +0.15 for a moderate-risk keyword,
capped at 1.0 at the end. -/
def calculateEnvironmentalModifier (environmental_exposures : List String) : ℚ :=
  let modifier := environmental_exposures.foldl (fun m e =>
    let el := strLower e
    if highRiskExposureKeywords.any (fun k => pySubstr k el) then m + 0.3
    else if moderateRiskExposureKeywords.any (fun k => pySubstr k el) then m + 0.15
    else m) 0
  min 1.0 modifier

/-- Python `str.title()` over a character list: the first letter after a
non-letter boundary is upper-cased, subsequent letters lower-cased (the
factor names here are ASCII words). -/
def titleChars : Bool → List Char → List Char
  | _, [] => []
  | prevAlpha, c :: cs =>
    (if prevAlpha then c.toLower else c.toUpper) :: titleChars c.isAlpha cs

/-- `factor.replace("_", " ").title()`. -/
def factorDisplayName (factor : String) : String :=
  String.mk (titleChars false
    (factor.data.map (fun c => if c == '_' then ' ' else c)))

/-- `_generate_epigenetic_recommendations` (the stress-factors argument is
accepted and unused, as in the source); the result is capped to 5 items. -/
def generateEpigeneticRecommendations (factor : String) (l : Lifestyle)
    (d : DietaryPatterns) (s : StressFactors) : Except PyErr (List String) := do
  let base :=
    if pySubstr "dna_methylation" factor then
      ["Increase folate and B-vitamin intake",
       "Consider Mediterranean diet pattern",
       "Limit alcohol consumption"]
    else if pySubstr "histone_modification" factor then
      ["Regular physical exercise",
       "Stress management techniques",
       "Adequate sleep (7-9 hours nightly)"]
    else if pySubstr "oxidative_stress" factor then
      ["Increase antioxidant-rich foods",
       "Reduce processed food consumption",
       "Consider antioxidant supplementation under medical guidance"]
    else if pySubstr "inflammation" factor then
      ["Anti-inflammatory diet (omega-3 rich foods)",
       "Regular moderate exercise",
       "Stress reduction techniques"]
    else if pySubstr "telomere" factor then
      ["Regular aerobic exercise",
       "Stress management and meditation",
       "Adequate sleep and recovery"]
    else []
  let r1 := if l.smoking then base ++ ["Smoking cessation program"] else base
  let stressL ← pyLowerStr l.stress_level
  let r2 := if stressL == "high" || stressL == "severe" then
      r1 ++ ["Professional stress management counseling",
             "Mindfulness or meditation practice"]
    else r1
  let pf ← pyLowerStr d.processed_food_frequency
  let r3 := if pf == "high" || pf == "daily" then
      r2 ++ ["Reduce processed food consumption"]
    else r2
  pure (r3.take 5)

/-- An epigenetic factor record (`EpigeneticFactor` dataclass). -/
structure EpigeneticFactor where
  factor_name : String
  risk_level : String
  probability_score : ℚ
  modifiable : Bool
  recommendations : List String
deriving DecidableEq

/-- `_calculate_epigenetic_factor_risk`: base risk scaled by the lifestyle
and environmental modifiers, clamped into [0.05, 0.95] and banded. -/
def calculateEpigeneticFactorRisk (factor : String) (lifestyle : Lifestyle)
    (environmental_exposures : List String) (dietary : DietaryPatterns)
    (stress : StressFactors) : Except PyErr EpigeneticFactor := do
  let info := lookupAssoc epigeneticFactorTable factor
  let base_risk := (info.map FactorInfo.base_risk).getD 0.1
  let lifestyle_impact := (info.map FactorInfo.lifestyle_impact).getD 0.3
  let lifestyle_modifier ← calculateLifestyleModifier lifestyle dietary stress
  let environmental_modifier := calculateEnvironmentalModifier environmental_exposures
  let final_risk := min 0.95
    (max 0.05 (base_risk * (1 + lifestyle_modifier * lifestyle_impact + environmental_modifier * 0.2)))
  let risk_level :=
    if final_risk < 0.3 then "low"
    else if final_risk < 0.6 then "moderate"
    else "high"
  let recommendations ← generateEpigeneticRecommendations factor lifestyle dietary stress
  pure {
    factor_name := factorDisplayName factor,
    risk_level := risk_level,
    probability_score := final_risk,
    modifiable := (info.map FactorInfo.modifiable).getD true,
    recommendations := recommendations }

/-- `calculate_epigenetic_risks`: extract, score the 8 factors, keep
scores above 0.1, sort descending (stable). -/
def calculateEpigeneticRisks (responses : List Response) :
    Except PyErr (List EpigeneticFactor) := do
  let lifestyle ← extractLifestyleFactors responses
  let environmental_exposures := extractEnvironmentalExposures responses
  let dietary := extractDietaryPatterns responses
  let stress ← extractStressFactors responses
  let all ← factorsToAssess.mapM
    (fun f => calculateEpigeneticFactorRisk f lifestyle environmental_exposures dietary stress)
  pure (sortByKeyDesc (fun e => e.probability_score)
    (all.filter (fun e => decide ((0.1 : ℚ) < e.probability_score))))

/-- Interim risk summary (`calculate_interim_risks` returns a dict mixing
numbers and strings; the embedding gives it one field per possible key). -/
structure InterimRisks where
  highest_genetic_risk : Option ℚ := Option.none
  genetic_risk_gene : Option String := Option.none
  highest_epigenetic_risk : Option ℚ := Option.none
  epigenetic_risk_factor : Option String := Option.none
  overall_risk : Option ℚ := Option.none
deriving DecidableEq

/-- `calculate_interim_risks`: per-branch top result (`max(..., key=...)`
keeps the first maximum) plus the blended overall score. -/
def calculateInterimRisks (responses : List Response) (questionnaire_type : String) :
    Except PyErr InterimRisks := do
  let base : InterimRisks := {}
  let r1 ←
    if questionnaire_type == "genetic_screening" ||
       questionnaire_type == "comprehensive_assessment" then do
      let geneticRisks ← calculateGeneticRisks responses
      match pyMaxBy (fun g => g.mutation_probability) geneticRisks with
      | some top => pure { base with
          highest_genetic_risk := some top.mutation_probability,
          genetic_risk_gene := some top.gene_symbol }
      | Option.none => pure base
    else pure base
  let r2 ←
    if questionnaire_type == "epigenetic_assessment" ||
       questionnaire_type == "comprehensive_assessment" then do
      let epigeneticRisks ← calculateEpigeneticRisks responses
      match pyMaxBy (fun e => e.probability_score) epigeneticRisks with
      | some top => pure { r1 with
          highest_epigenetic_risk := some top.probability_score,
          epigenetic_risk_factor := some top.factor_name }
      | Option.none => pure r1
    else pure r1
  let overall : Option ℚ :=
    match r2.highest_genetic_risk, r2.highest_epigenetic_risk with
    | some g, some e => some (g * 0.7 + e * 0.3)
    | some g, Option.none => some (g * 0.8)
    | Option.none, some e => some (e * 0.6)
    | Option.none, Option.none => Option.none
  pure { r2 with overall_risk := overall }

/-! ## Questionnaire service (`questionnaire_service.py`) -/

/-- A persisted questionnaire session snapshot (`QuestionnaireSession`).
The `patient_id`/`created_by`/`created_at` metadata fields are opaque to
every algorithm treated here and are not modelled. -/
structure Session where
  session_id : String
  questionnaire_type : String
  responses : List Response
  current_question_index : ℕ
  is_complete : Bool
  is_paused : Bool
  risk_scores : InterimRisks
  question_path : List String
  estimated_questions : ℕ
deriving DecidableEq

/-- The distinct failure exits of `record_response` (all raised as
`ValueError` in the source, distinguished by message; the spec taxonomy
calls the completed-session one a `StateError` and the rest
`ValidationError`s).  `runtime e` is an uncaught Python exception escaping
from the interim risk computation, in which case the updated session is
never persisted. -/
inductive SvcError where
  | stateErrorCompleted
  | validationMissingQuestionId
  | validationQuestionNotFound
  | validationInvalidFormat
  | runtime (e : PyErr)
deriving DecidableEq

/-- `_validate_response_format`: a pure runtime-type check against the
question's declared `question_type`; `validation_rules` is never consulted.
Python's `isinstance(x, (int, float))` also accepts booleans (`bool` is a
subclass of `int`), and unknown question types default to valid. -/
def validateResponseFormat (question : Question) (response : Response) : Bool :=
  let v := response.response
  if question.question_type == "boolean" then
    (match v with | .b _ => true | _ => false)
  else if question.question_type == "numeric" then
    (match v with | .b _ => true | .num _ => true | _ => false)
  else if question.question_type == "multiple_choice" || question.question_type == "text" then
    (match v with | .s _ => true | _ => false)
  else if question.question_type == "multi_select" then
    (match v with | .vlist _ => true | _ => false)
  else true

/-- `create_session`: no validation of the questionnaire type; the initial
question list is computed and discarded, the estimate is stored.  The
session id comes from `uuid` and is a parameter here. -/
def createSession (questionnaire_type : String) (session_id : String) : Session :=
  { session_id := session_id,
    questionnaire_type := questionnaire_type,
    responses := [],
    current_question_index := 0,
    is_complete := false,
    is_paused := false,
    risk_scores := {},
    question_path := [],
    estimated_questions := estimateTotalQuestions questionnaire_type }

/-- `record_response` on a loaded session: completed check, question-id
truthiness check (`if not question_id` also rejects the empty string),
bank lookup, type validation, then append to `responses` and
`question_path` and recompute the interim risk scores before persisting.
The timestamp default-fill is not modelled.  A `runtime` error means the
interim scoring raised, so the appended state was never persisted. -/
def recordResponse (s : Session) (r : Response) : Except SvcError Session :=
  if s.is_complete then .error .stateErrorCompleted
  else
    match r.question_id with
    | Option.none => .error .validationMissingQuestionId
    | some qid =>
      if qid == "" then .error .validationMissingQuestionId
      else
        match getQuestion qid with
        | Option.none => .error .validationQuestionNotFound
        | some question =>
          if !(validateResponseFormat question r) then .error .validationInvalidFormat
          else
            match calculateInterimRisks (s.responses ++ [r]) s.questionnaire_type with
            | .error e => .error (.runtime e)
            | .ok risks =>
              .ok { s with
                responses := s.responses ++ [r],
                question_path := s.question_path ++ [qid],
                risk_scores := risks }

/-- `_calculate_overall_risk_score`: mean probabilities (guarded by
`max(1, len)`) blended 0.7 / 0.3. -/
def calculateOverallRiskScore (genetic_predictions : List GeneticRisk)
    (epigenetic_factors : List EpigeneticFactor) : ℚ :=
  let genetic_score := (genetic_predictions.foldl (fun a p => a + p.mutation_probability) (0 : ℚ)) /
    ((max 1 genetic_predictions.length : ℕ) : ℚ)
  let epigenetic_score := (epigenetic_factors.foldl (fun a p => a + p.probability_score) (0 : ℚ)) /
    ((max 1 epigenetic_factors.length : ℕ) : ℚ)
  genetic_score * 0.7 + epigenetic_score * 0.3

/-- `_generate_recommendations`. -/
def generateRecommendations (genetic_predictions : List GeneticRisk)
    (epigenetic_factors : List EpigeneticFactor) (overall_risk : ℚ) : List String :=
  let r0 :=
    if genetic_predictions.any (fun p => decide ((0.3 : ℚ) < p.mutation_probability)) then
      ["Consider genetic counseling and confirmatory testing",
       "Discuss family screening and cascade testing"]
    else []
  let r1 := r0 ++
    (if epigenetic_factors.any (fun f => f.modifiable) then
      ["Lifestyle modifications may reduce epigenetic risk factors"]
    else [])
  r1 ++
    (if (0.7 : ℚ) < overall_risk then ["Consider enhanced screening protocols"]
     else if (0.4 : ℚ) < overall_risk then
       ["Standard screening with consideration for earlier/more frequent monitoring"]
     else [])

/-- `_determine_clinical_urgency`. -/
def determineClinicalUrgency (overall_risk : ℚ)
    (genetic_predictions : List GeneticRisk) : String :=
  if genetic_predictions.any (fun p => decide ((0.8 : ℚ) < p.mutation_probability)) then "critical"
  else if (0.7 : ℚ) < overall_risk then "urgent"
  else if (0.4 : ℚ) < overall_risk then "elevated"
  else "routine"

/-- The payload assembled by `calculate_final_results` (the
`session_id`/`completion_date` metadata fields are not modelled). -/
structure FinalResults where
  total_questions_answered : ℕ
  genetic_predictions : List GeneticRisk
  epigenetic_factors : List EpigeneticFactor
  overall_risk_score : ℚ
  next_steps : List String
  clinical_urgency : String
  questionnaire_type : String
deriving DecidableEq

/-- `calculate_final_results` on a loaded session: if the session is not
complete but has at least 5 responses, the completed flag is set and the
session persisted first; then the full results are computed from the
(unchanged) response list.  The first component is the persisted session
state, the second the computed results (or the uncaught exception from the
risk engines, in which case the flag update has already been persisted). -/
def calculateFinalResults (s : Session) : Session × Except PyErr FinalResults :=
  let s1 := if !s.is_complete && 5 ≤ s.responses.length then { s with is_complete := true } else s
  (s1, do
    let genetic_predictions ← calculateGeneticRisks s.responses
    let epigenetic_factors ← calculateEpigeneticRisks s.responses
    let overall_risk := calculateOverallRiskScore genetic_predictions epigenetic_factors
    pure {
      total_questions_answered := s.responses.length,
      genetic_predictions := genetic_predictions,
      epigenetic_factors := epigenetic_factors,
      overall_risk_score := overall_risk,
      next_steps := generateRecommendations genetic_predictions epigenetic_factors overall_risk,
      clinical_urgency := determineClinicalUrgency overall_risk genetic_predictions,
      questionnaire_type := s.questionnaire_type })

/-! ## Helper lemmas about the selection machinery -/

theorem pyMaxBy_eq_none_iff {α : Type} (key : α → ℚ) (l : List α) :
    pyMaxBy key l = Option.none ↔ l = [] := by
  cases l with
  | nil => simp [pyMaxBy]
  | cons x xs =>
    simp only [pyMaxBy]
    cases h : pyMaxBy key xs with
    | none => simp
    | some m => by_cases hk : key x < key m <;> simp [hk]

theorem pyMaxBy_mem {α : Type} (key : α → ℚ) :
    ∀ (l : List α) (m : α), pyMaxBy key l = some m → m ∈ l := by
  intro l
  induction l with
  | nil => intro m hm; simp [pyMaxBy] at hm
  | cons x xs ih =>
    intro m hm
    simp only [pyMaxBy] at hm
    cases h : pyMaxBy key xs with
    | none =>
      rw [h] at hm
      cases hm
      exact List.mem_cons_self x xs
    | some m' =>
      rw [h] at hm
      by_cases hk : key x < key m'
      · simp [hk] at hm
        subst hm
        exact List.mem_cons_of_mem x (ih m' h)
      · simp [hk] at hm
        subst hm
        exact List.mem_cons_self x xs

theorem pyMaxBy_le {α : Type} (key : α → ℚ) :
    ∀ (l : List α) (m : α), pyMaxBy key l = some m → ∀ x ∈ l, key x ≤ key m := by
  intro l
  induction l with
  | nil => intro m hm; simp [pyMaxBy] at hm
  | cons x xs ih =>
    intro m hm y hy
    simp only [pyMaxBy] at hm
    cases h : pyMaxBy key xs with
    | none =>
      rw [h] at hm
      cases hm
      rcases List.mem_cons.mp hy with rfl | hy'
      · exact le_refl _
      · exact absurd ((pyMaxBy_eq_none_iff key xs).mp h ▸ hy') (List.not_mem_nil y)
    | some m' =>
      rw [h] at hm
      by_cases hk : key x < key m'
      · simp [hk] at hm
        subst hm
        rcases List.mem_cons.mp hy with rfl | hy'
        · exact le_of_lt hk
        · exact ih m' h y hy'
      · simp [hk] at hm
        subst hm
        rcases List.mem_cons.mp hy with rfl | hy'
        · exact le_refl _
        · exact le_trans (ih m' h y hy') (not_lt.mp hk)

theorem pyMaxBy_first {α : Type} (key : α → ℚ) :
    ∀ (l : List α) (m : α), pyMaxBy key l = some m →
      ∃ pre suf, l = pre ++ m :: suf ∧ ∀ x ∈ pre, key x < key m := by
  intro l
  induction l with
  | nil => intro m hm; simp [pyMaxBy] at hm
  | cons x xs ih =>
    intro m hm
    simp only [pyMaxBy] at hm
    cases h : pyMaxBy key xs with
    | none =>
      rw [h] at hm
      cases hm
      exact ⟨[], xs, rfl, by simp⟩
    | some m' =>
      rw [h] at hm
      by_cases hk : key x < key m'
      · simp [hk] at hm
        subst hm
        obtain ⟨pre, suf, heq, hlt⟩ := ih m' h
        refine ⟨x :: pre, suf, by rw [heq]; simp, ?_⟩
        intro y hy
        rcases List.mem_cons.mp hy with rfl | hy'
        · exact hk
        · exact hlt y hy'
      · simp [hk] at hm
        subst hm
        exact ⟨[], xs, rfl, by simp⟩

theorem insertByKeyDesc_head {α : Type} (key : α → ℚ) (x : α) (l : List α) :
    (insertByKeyDesc key x l).head? =
      some (match l.head? with
            | Option.none => x
            | some y => if key x < key y then y else x) := by
  cases l with
  | nil => simp [insertByKeyDesc]
  | cons y ys =>
    simp only [insertByKeyDesc]
    by_cases hk : key x < key y
    · simp [hk]
    · simp [hk]

theorem sortByKeyDesc_head {α : Type} (key : α → ℚ) :
    ∀ l : List α, (sortByKeyDesc key l).head? = pyMaxBy key l := by
  intro l
  induction l with
  | nil => rfl
  | cons x xs ih =>
    simp only [sortByKeyDesc, pyMaxBy]
    rw [insertByKeyDesc_head, ih]
    cases h : pyMaxBy key xs with
    | none => simp
    | some m =>
      simp only []
      split <;> simp

theorem pyMaxBy_map_pair (key : String → ℚ) (l : List String) :
    pyMaxBy (fun p => p.2) (l.map (fun q => (q, key q))) =
      (pyMaxBy key l).map (fun q => (q, key q)) := by
  induction l with
  | nil => rfl
  | cons x xs ih =>
    simp only [List.map, pyMaxBy, ih]
    cases h : pyMaxBy key xs with
    | none => simp
    | some m =>
      simp only [Option.map]
      split <;> split <;> simp_all

theorem selectNextQuestion_eq_pyMaxBy (candidates : List String) (responses : List Response) :
    selectNextQuestion candidates responses =
      pyMaxBy (fun qid => scoreQuestion qid responses) candidates := by
  cases candidates with
  | nil => rfl
  | cons c cs =>
    simp only [selectNextQuestion]
    rw [sortByKeyDesc_head, pyMaxBy_map_pair]
    cases pyMaxBy (fun qid => scoreQuestion qid responses) (c :: cs) <;> simp

theorem getNextQuestionId_eq_pyMaxBy (t : String) (resp : List Response) (path : List String) :
    getNextQuestionId t resp path =
      pyMaxBy (fun qid => scoreQuestion qid resp) (findCandidateQuestions t resp path) := by
  unfold getNextQuestionId
  cases h : findCandidateQuestions t resp path with
  | nil => rfl
  | cons c cs => exact selectNextQuestion_eq_pyMaxBy (c :: cs) resp

theorem mem_findCandidateQuestions {t : String} {resp : List Response}
    {path : List String} {q : String} :
    q ∈ findCandidateQuestions t resp path ↔
      ∃ Q, Q ∈ questionBank ∧ candidatePred t resp path Q = true ∧ Q.question_id = q := by
  simp only [findCandidateQuestions, List.mem_map, List.mem_filter]
  constructor
  · rintro ⟨Q, ⟨hmem, hpred⟩, hid⟩
    exact ⟨Q, hmem, hpred, hid⟩
  · rintro ⟨Q, hmem, hpred, hid⟩
    exact ⟨Q, ⟨hmem, hpred⟩, hid⟩

theorem find?_pred_and_mem {α : Type} (p : α → Bool) :
    ∀ (l : List α) (a : α), l.find? p = some a → p a = true ∧ a ∈ l := by
  intro l
  induction l with
  | nil => intro a h; simp [List.find?] at h
  | cons x xs ih =>
    intro a h
    rcases List.find?_cons_eq_some.mp h with ⟨hpx, rfl⟩ | ⟨_, hfind⟩
    · exact ⟨hpx, List.mem_cons_self x xs⟩
    · obtain ⟨hp, hm⟩ := ih a hfind
      exact ⟨hp, List.mem_cons_of_mem _ hm⟩

/-- A response whose recorded value for `qid` is a non-`None` value makes
`qid` a key of the response map. -/
theorem responseMapHas_of_get {resp : List Response} {qid : String} {v : Value}
    (h : responseMapGet resp qid = v) (hne : v ≠ Value.none) :
    responseMapHas resp qid = true := by
  unfold responseMapGet at h
  cases hf : resp.reverse.find? (fun r => r.question_id == some qid) with
  | none => rw [hf] at h; exact absurd h.symm hne
  | some r =>
    obtain ⟨hpred, hmem⟩ := find?_pred_and_mem _ _ _ hf
    unfold responseMapHas
    exact List.any_eq_true.mpr ⟨r, List.mem_reverse.mp hmem, hpred⟩

/-- A successful `recordResponse` appends the response to the response list
and its question id to the question path. -/
theorem recordResponse_ok_state {s : Session} {r : Response} {s' : Session}
    (hok : recordResponse s r = .ok s') :
    ∃ qid, r.question_id = some qid ∧
      s'.responses = s.responses ++ [r] ∧
      s'.question_path = s.question_path ++ [qid] := by
  unfold recordResponse at hok
  split at hok
  · exact absurd hok (by simp)
  · split at hok
    · exact absurd hok (by simp)
    · rename_i qid hq
      split at hok
      · exact absurd hok (by simp)
      · split at hok
        · exact absurd hok (by simp)
        · split at hok
          · exact absurd hok (by simp)
          · split at hok
            · exact absurd hok (by simp)
            · refine ⟨qid, hq, ?_, ?_⟩ <;> (cases hok; rfl)

/-! ## Claim theorems -/

deriving instance DecidableEq for Except

/-- C2: for every session whose completed flag is true and every response
payload, `record_response` fails with the completed-session state error
(the check precedes every mutation, so nothing is recorded). -/
theorem C2_completed_session_rejects_response (s : Session) (r : Response)
    (h : s.is_complete = true) :
    recordResponse s r = .error SvcError.stateErrorCompleted := by
  simp [recordResponse, h]

theorem C2_witness :
    ({ createSession "genetic_screening" "sid" with is_complete := true } : Session).is_complete = true ∧
    recordResponse { createSession "genetic_screening" "sid" with is_complete := true }
      ⟨some "demo_age", Value.num 30⟩ = .error SvcError.stateErrorCompleted :=
  ⟨rfl, C2_completed_session_rejects_response _ _ rfl⟩

/-- C8 counterexample: creating a session with an unsupported questionnaire
type does not fail — `create_session` performs no variant validation and
returns a fresh session with the default estimate of 10 and an empty
initial question set. -/
theorem C8_counterexample :
    createSession "unsupported_variant" "sid" =
      { session_id := "sid", questionnaire_type := "unsupported_variant",
        responses := [], current_question_index := 0, is_complete := false,
        is_paused := false, risk_scores := {}, question_path := [],
        estimated_questions := 10 } ∧
    getInitialQuestions "unsupported_variant" = [] := by
  constructor <;> with_unfolding_all decide

/-- C8 (amended): for every questionnaire type outside the three supported
ones, `create_session` succeeds, storing the default estimate 10, with an
empty initial question set and a fresh (not completed) session. -/
theorem C8_amended (t sid : String)
    (h1 : t ≠ "genetic_screening") (h2 : t ≠ "epigenetic_assessment")
    (h3 : t ≠ "comprehensive_assessment") :
    (createSession t sid).estimated_questions = 10 ∧
    getInitialQuestions t = [] ∧
    (createSession t sid).is_complete = false := by
  refine ⟨?_, ?_, rfl⟩ <;>
    simp [createSession, estimateTotalQuestions, getInitialQuestions, beq_iff_eq, h1, h2, h3]

theorem C8_amended_witness :
    (createSession "unsupported_variant" "sid").estimated_questions = 10 ∧
    getInitialQuestions "unsupported_variant" = [] ∧
    (createSession "unsupported_variant" "sid").is_complete = false :=
  C8_amended "unsupported_variant" "sid" (by decide) (by decide) (by decide)

/-- C4: evaluating `_calculate_environmental_modifier` on the exposures
extracted from the question bank's own options "Heavy metals" and
"Industrial chemicals" yields 0, not +0.3 each: the keyword lists carry
underscores ("heavy_metals", "industrial_chemicals") which never occur as
substrings of the space-separated option strings.  Single-word keywords
such as "asbestos" do contribute +0.3. -/
theorem C4_multiword_exposure_keywords_never_match :
    calculateEnvironmentalModifier (extractEnvironmentalExposures
      [⟨some "environmental_exposures",
        Value.vlist ["Heavy metals", "Industrial chemicals"]⟩]) = 0 ∧
    calculateEnvironmentalModifier ["asbestos"] = 0.3 := by
  constructor <;> with_unfolding_all decide

/-- C1 counterexample: `record_response` appends the question id without
any duplicate guard, so resubmitting an already-answered question id turns
a duplicate-free question path into one with a duplicate. -/
theorem C1_counterexample :
    ((recordResponse (createSession "epigenetic_assessment" "sid")
        ⟨some "demo_age", Value.num 30⟩).map Session.question_path) =
      Except.ok ["demo_age"] ∧
    (((recordResponse (createSession "epigenetic_assessment" "sid")
        ⟨some "demo_age", Value.num 30⟩).bind
      (fun s1 => recordResponse s1 ⟨some "demo_age", Value.num 30⟩)).map
        Session.question_path) = Except.ok ["demo_age", "demo_age"] ∧
    ¬ (["demo_age", "demo_age"] : List String).Nodup := by
  refine ⟨?_, ?_, by decide⟩ <;> with_unfolding_all decide

/-- C1 (amended): starting from a session whose question path has no
duplicates, a successful `record_response` whose question id is not already
on the path yields a duplicate-free path; the source has no guard, so the
freshness hypothesis is necessary. -/
theorem C1_amended (s : Session) (r : Response) (s' : Session)
    (hnd : s.question_path.Nodup)
    (hfresh : ∀ qid, r.question_id = some qid → qid ∉ s.question_path)
    (hok : recordResponse s r = .ok s') :
    s'.question_path.Nodup := by
  obtain ⟨qid, hq, _, hpath⟩ := recordResponse_ok_state hok
  rw [hpath]
  simp [List.nodup_append, hnd, hfresh qid hq]

theorem C1_amended_witness :
    ∃ s' : Session,
      recordResponse (createSession "epigenetic_assessment" "wid")
        ⟨some "stress_level", Value.s "High"⟩ = .ok s' ∧
      s'.question_path.Nodup := by
  with_unfolding_all
    obtain ⟨s', h⟩ : ∃ s',
        recordResponse (createSession "epigenetic_assessment" "wid")
          ⟨some "stress_level", Value.s "High"⟩ = .ok s' := ⟨_, rfl⟩
    exact ⟨s', h, C1_amended _ _ _ (by decide)
      (by intro qid hq; simp at hq; subst hq; simp [createSession]) h⟩

/-- C6 counterexample: with three remaining candidates that tie on the top
score 6.5, the selector returns `lifestyle_exercise` — the first of them in
the bank's registration order — although `diet_quality` is the
lexicographically least of the tied candidates, so ties are not broken
lexicographically. -/
theorem C6_counterexample :
    getNextQuestionId "comprehensive_assessment" []
      ["demo_age", "demo_gender", "demo_ethnicity", "family_cancer_history",
       "family_multiple_cancers", "personal_cancer_history", "lifestyle_smoking",
       "lifestyle_alcohol", "current_symptoms"] = some "lifestyle_exercise" ∧
    "diet_quality" ∈ findCandidateQuestions "comprehensive_assessment" []
      ["demo_age", "demo_gender", "demo_ethnicity", "family_cancer_history",
       "family_multiple_cancers", "personal_cancer_history", "lifestyle_smoking",
       "lifestyle_alcohol", "current_symptoms"] ∧
    scoreQuestion "diet_quality" [] = scoreQuestion "lifestyle_exercise" [] ∧
    "diet_quality" < "lifestyle_exercise" := by
  refine ⟨by with_unfolding_all decide, by with_unfolding_all decide,
    by with_unfolding_all decide, String.lt_iff_toList_lt.mpr (by decide)⟩

/-- C6 (amended): the selector always returns a candidate of maximal score
(`priority_weight` plus boost), and among equally scored candidates the one
that comes first in the question bank's fixed registration order — a
deterministic tie-break, but not the lexicographic order of ids. -/
theorem C6_amended (t : String) (resp : List Response) (path : List String) (q : String)
    (h : getNextQuestionId t resp path = some q) :
    ∃ pre suf, findCandidateQuestions t resp path = pre ++ q :: suf ∧
      (∀ p ∈ pre, scoreQuestion p resp < scoreQuestion q resp) ∧
      (∀ p ∈ findCandidateQuestions t resp path,
        scoreQuestion p resp ≤ scoreQuestion q resp) := by
  rw [getNextQuestionId_eq_pyMaxBy] at h
  obtain ⟨pre, suf, heq, hlt⟩ := pyMaxBy_first _ _ _ h
  exact ⟨pre, suf, heq, hlt, pyMaxBy_le _ _ _ h⟩

theorem C6_amended_witness :
    ∃ pre suf, findCandidateQuestions "genetic_screening" [] [] = pre ++ "demo_age" :: suf ∧
      (∀ p ∈ pre, scoreQuestion p [] < scoreQuestion "demo_age" []) ∧
      (∀ p ∈ findCandidateQuestions "genetic_screening" [] [],
        scoreQuestion p [] ≤ scoreQuestion "demo_age" []) :=
  C6_amended "genetic_screening" [] [] "demo_age" (by with_unfolding_all decide)

/-- When the family-history answer in the response map is `False`, the
three follow-up questions are skipped and never candidates. -/
theorem skipcond_excludes_trio (t : String) (resp : List Response) (path : List String)
    (h : responseMapGet resp "family_cancer_history" = Value.b false) :
    ∀ q, (q = "family_cancer_types" ∨ q = "family_cancer_relatives" ∨
          q = "family_early_onset") →
      q ∉ findCandidateQuestions t resp path := by
  intro q hq hmem
  rw [mem_findCandidateQuestions] at hmem
  obtain ⟨Q, hQ, hpred, hid⟩ := hmem
  have hskipeq : Q.skip_conditions = [("family_cancer_history", Value.b false)] := by
    have hb : ∀ Q0 ∈ questionBank,
        (Q0.question_id = "family_cancer_types" ∨
         Q0.question_id = "family_cancer_relatives" ∨
         Q0.question_id = "family_early_onset") →
        Q0.skip_conditions = [("family_cancer_history", Value.b false)] := by
      with_unfolding_all decide
    exact hb Q hQ (hid ▸ hq)
  have hskip : shouldSkipQuestion Q resp = true := by
    unfold shouldSkipQuestion
    rw [hskipeq]
    simp only [List.any_cons, List.any_nil, Bool.or_false]
    rw [h]
    with_unfolding_all decide
  unfold candidatePred at hpred
  rw [hskip] at hpred
  simp at hpred

/-- C7 counterexample: a session can contain `family_cancer_history`
answered `false` and still be offered `family_cancer_types`, because a
later duplicate answer `true` overrides the first in the response map. -/
theorem C7_counterexample :
    ((⟨some "family_cancer_history", Value.b false⟩ : Response) ∈
      ([⟨some "family_cancer_history", Value.b false⟩,
        ⟨some "family_cancer_history", Value.b true⟩] : List Response)) ∧
    getNextQuestionId "genetic_screening"
      [⟨some "family_cancer_history", Value.b false⟩,
       ⟨some "family_cancer_history", Value.b true⟩]
      ["family_cancer_history", "family_cancer_history"] =
      some "family_cancer_types" := by
  exact ⟨List.mem_cons_self _ _, by with_unfolding_all decide⟩

/-- C7 (amended): whenever the effective (most recent) recorded answer to
`family_cancer_history` is `false`, none of `family_cancer_types`,
`family_cancer_relatives`, `family_early_onset` is a candidate, and the
selector never returns any of them, whatever the variant and path. -/
theorem C7_amended (t : String) (resp : List Response) (path : List String)
    (h : responseMapGet resp "family_cancer_history" = Value.b false) :
    ("family_cancer_types" ∉ findCandidateQuestions t resp path ∧
     "family_cancer_relatives" ∉ findCandidateQuestions t resp path ∧
     "family_early_onset" ∉ findCandidateQuestions t resp path) ∧
    ∀ q, getNextQuestionId t resp path = some q →
      q ≠ "family_cancer_types" ∧ q ≠ "family_cancer_relatives" ∧
      q ≠ "family_early_onset" := by
  have hex := skipcond_excludes_trio t resp path h
  refine ⟨⟨hex _ (Or.inl rfl), hex _ (Or.inr (Or.inl rfl)), hex _ (Or.inr (Or.inr rfl))⟩, ?_⟩
  intro q hsel
  rw [getNextQuestionId_eq_pyMaxBy] at hsel
  have hmem := pyMaxBy_mem _ _ _ hsel
  refine ⟨?_, ?_, ?_⟩ <;> rintro rfl
  · exact hex _ (Or.inl rfl) hmem
  · exact hex _ (Or.inr (Or.inl rfl)) hmem
  · exact hex _ (Or.inr (Or.inr rfl)) hmem

theorem C7_amended_witness :
    ("family_cancer_types" ∉ findCandidateQuestions "genetic_screening"
        [⟨some "family_cancer_history", Value.b false⟩] ["family_cancer_history"] ∧
     "family_cancer_relatives" ∉ findCandidateQuestions "genetic_screening"
        [⟨some "family_cancer_history", Value.b false⟩] ["family_cancer_history"] ∧
     "family_early_onset" ∉ findCandidateQuestions "genetic_screening"
        [⟨some "family_cancer_history", Value.b false⟩] ["family_cancer_history"]) ∧
    ∀ q, getNextQuestionId "genetic_screening"
        [⟨some "family_cancer_history", Value.b false⟩] ["family_cancer_history"] = some q →
      q ≠ "family_cancer_types" ∧ q ≠ "family_cancer_relatives" ∧
      q ≠ "family_early_onset" :=
  C7_amended "genetic_screening" [⟨some "family_cancer_history", Value.b false⟩]
    ["family_cancer_history"] (by with_unfolding_all decide)

/-- C9: response validation is a runtime-type check only — the
`validation_rules` field never influences it, every numeric question
accepts every rational value, `demo_age` declares min 0 / max 120, and
`record_response` never rejects a numeric answer for `demo_age` (such as
500 or −5) as invalid; when it succeeds the value is appended verbatim. -/
theorem C9_validation_is_type_only :
    (∀ (q : Question) (rules : List (String × ℚ)) (r : Response),
        validateResponseFormat { q with validation_rules := rules } r =
          validateResponseFormat q r) ∧
    (∀ q : Question, q.question_type = "numeric" →
        ∀ (x : ℚ) (oq : Option String),
          validateResponseFormat q ⟨oq, Value.num x⟩ = true) ∧
    ((getQuestion "demo_age").map Question.validation_rules =
        some [("min", 0), ("max", 120)]) ∧
    (∀ x : ℚ,
      recordResponse (createSession "epigenetic_assessment" "sid")
          ⟨some "demo_age", Value.num x⟩ ≠
        Except.error SvcError.validationInvalidFormat ∧
      ∀ s', recordResponse (createSession "epigenetic_assessment" "sid")
          ⟨some "demo_age", Value.num x⟩ = .ok s' →
        s'.responses = [⟨some "demo_age", Value.num x⟩] ∧
        s'.question_path = ["demo_age"]) := by
  refine ⟨?_, ?_, by with_unfolding_all decide, ?_⟩
  · intro q rules r
    simp [validateResponseFormat]
  · intro q hq x oq
    simp [validateResponseFormat, hq]
  · intro x
    have hget : getQuestion "demo_age" = some
        { question_id := "demo_age", question_type := "numeric",
          validation_rules := [("min", 0), ("max", 120)],
          category := "demographics", priority_weight := 10.0,
          genetic_associations := some [("BRCA1", 0.2), ("BRCA2", 0.2), ("TP53", 0.3)],
          epigenetic_associations :=
            some [("telomere_dysfunction", 0.4), ("oxidative_stress", 0.3)] } := by
      with_unfolding_all decide
    constructor
    · intro hcontra
      unfold recordResponse at hcontra
      simp only [createSession, hget,
        show (("demo_age" : String) == "") = false from by decide,
        Bool.false_eq_true, if_false, if_true] at hcontra
      rw [show validateResponseFormat
          { question_id := "demo_age", question_type := "numeric",
            validation_rules := [("min", 0), ("max", 120)],
            category := "demographics", priority_weight := 10.0,
            genetic_associations := some [("BRCA1", 0.2), ("BRCA2", 0.2), ("TP53", 0.3)],
            epigenetic_associations :=
              some [("telomere_dysfunction", 0.4), ("oxidative_stress", 0.3)] }
          ⟨some "demo_age", Value.num x⟩ = true from by
        simp [validateResponseFormat]] at hcontra
      simp only [Bool.not_true, Bool.false_eq_true, if_false, List.nil_append] at hcontra
      cases hint : calculateInterimRisks [⟨some "demo_age", Value.num x⟩]
          "epigenetic_assessment" with
      | ok risks => rw [hint] at hcontra; simp at hcontra
      | error e => rw [hint] at hcontra; simp at hcontra
    · intro s' hok
      obtain ⟨qid, hqid, hresp, hpath⟩ := recordResponse_ok_state hok
      simp only [Option.some.injEq] at hqid
      subst hqid
      exact ⟨by simpa [createSession] using hresp, by simpa [createSession] using hpath⟩

set_option maxRecDepth 100000 in
theorem C9_witness :
    validateResponseFormat
      { question_id := "demo_age", question_type := "numeric",
        validation_rules := [("min", 0), ("max", 120)],
        category := "demographics", priority_weight := 10.0 }
      ⟨some "demo_age", Value.num 500⟩ = true ∧
    recordResponse (createSession "epigenetic_assessment" "sid")
        ⟨some "demo_age", Value.num 500⟩ ≠
      Except.error SvcError.validationInvalidFormat ∧
    recordResponse (createSession "epigenetic_assessment" "sid")
        ⟨some "demo_age", Value.num (-5)⟩ ≠
      Except.error SvcError.validationInvalidFormat ∧
    ((recordResponse (createSession "epigenetic_assessment" "sid")
        ⟨some "demo_age", Value.num 500⟩).map
      (fun s' => (s'.responses, s'.question_path))) =
      Except.ok ([⟨some "demo_age", Value.num 500⟩], ["demo_age"]) :=
  ⟨C9_validation_is_type_only.2.1 _ rfl 500 (some "demo_age"),
   (C9_validation_is_type_only.2.2.2 500).1,
   (C9_validation_is_type_only.2.2.2 (-5)).1,
   by with_unfolding_all decide⟩

/-- C10: `calculate_final_results` on a not-yet-complete session with at
least 5 responses persists the completed flag (no selector is consulted),
while with fewer than 5 responses the stored session is unchanged; in both
cases the full results are computed from the session's responses. -/
theorem C10_five_response_threshold_completes (s : Session) (h : s.is_complete = false) :
    (5 ≤ s.responses.length →
      (calculateFinalResults s).1 = { s with is_complete := true }) ∧
    (s.responses.length < 5 → (calculateFinalResults s).1 = s) ∧
    (∀ res : FinalResults, (calculateFinalResults s).2 = Except.ok res →
      Except.ok res.genetic_predictions = calculateGeneticRisks s.responses ∧
      Except.ok res.epigenetic_factors = calculateEpigeneticRisks s.responses ∧
      res.overall_risk_score =
        calculateOverallRiskScore res.genetic_predictions res.epigenetic_factors ∧
      res.next_steps = generateRecommendations res.genetic_predictions
        res.epigenetic_factors res.overall_risk_score ∧
      res.clinical_urgency =
        determineClinicalUrgency res.overall_risk_score res.genetic_predictions ∧
      res.total_questions_answered = s.responses.length) := by
  refine ⟨?_, ?_, ?_⟩
  · intro h5
    simp [calculateFinalResults, h, h5]
  · intro h5
    simp [calculateFinalResults, h, Nat.not_le.mpr h5]
  · intro res hres
    unfold calculateFinalResults at hres
    simp only [] at hres
    cases hg : calculateGeneticRisks s.responses with
    | error e =>
      rw [hg] at hres
      exact absurd hres (by simp [Bind.bind, Except.bind])
    | ok gp =>
      cases he : calculateEpigeneticRisks s.responses with
      | error e =>
        rw [hg, he] at hres
        exact absurd hres (by simp [Bind.bind, Except.bind])
      | ok ef =>
        rw [hg, he] at hres
        simp only [Bind.bind, Except.bind, pure, Except.pure, Except.ok.injEq] at hres
        subst hres
        exact ⟨by simp [hg], by simp [he], rfl, rfl, rfl, rfl⟩

theorem C10_witness :
    (calculateFinalResults
      { createSession "epigenetic_assessment" "sid" with responses :=
        [⟨some "q1", Value.b true⟩, ⟨some "q2", Value.b true⟩, ⟨some "q3", Value.b true⟩,
         ⟨some "q4", Value.b true⟩, ⟨some "q5", Value.b true⟩] }).1 =
    { createSession "epigenetic_assessment" "sid" with
        responses :=
          [⟨some "q1", Value.b true⟩, ⟨some "q2", Value.b true⟩, ⟨some "q3", Value.b true⟩,
           ⟨some "q4", Value.b true⟩, ⟨some "q5", Value.b true⟩],
        is_complete := true } ∧
    (calculateFinalResults
      { createSession "epigenetic_assessment" "sid" with responses :=
        [⟨some "q1", Value.b true⟩, ⟨some "q2", Value.b true⟩] }).1 =
    { createSession "epigenetic_assessment" "sid" with responses :=
        [⟨some "q1", Value.b true⟩, ⟨some "q2", Value.b true⟩] } :=
  ⟨(C10_five_response_threshold_completes _ rfl).1 (by decide),
   (C10_five_response_threshold_completes _ rfl).2.1 (by decide)⟩

/-! ### Membership lemmas for the genetic-risk pipeline -/

theorem mem_insertByKeyDesc {α : Type} (key : α → ℚ) (x y : α) :
    ∀ l : List α, y ∈ insertByKeyDesc key x l ↔ y = x ∨ y ∈ l := by
  intro l
  induction l with
  | nil => simp [insertByKeyDesc]
  | cons z zs ih =>
    simp only [insertByKeyDesc]
    by_cases hk : key x < key z
    · simp only [hk, if_true, List.mem_cons, ih]
      tauto
    · simp only [hk, if_false, List.mem_cons]

theorem mem_sortByKeyDesc {α : Type} (key : α → ℚ) (y : α) :
    ∀ l : List α, y ∈ sortByKeyDesc key l ↔ y ∈ l := by
  intro l
  induction l with
  | nil => simp [sortByKeyDesc]
  | cons x xs ih =>
    simp only [sortByKeyDesc, mem_insertByKeyDesc, ih, List.mem_cons]

theorem mapM_except_mem {α β ε : Type} (f : α → Except ε β) :
    ∀ (l : List α) (out : List β), l.mapM f = .ok out →
      ∀ b ∈ out, ∃ a ∈ l, f a = .ok b := by
  intro l
  induction l with
  | nil =>
    intro out h b hb
    have h0 : ([] : List α).mapM f = Except.ok ([] : List β) := rfl
    rw [h0] at h
    have : ([] : List β) = out := (Except.ok.injEq _ _).mp h
    subst this
    exact absurd hb (List.not_mem_nil b)
  | cons x xs ih =>
    intro out h b hb
    rw [List.mapM_cons] at h
    cases hfx : f x with
    | error e => rw [hfx] at h; simp [Bind.bind, Except.bind] at h
    | ok bx =>
      rw [hfx] at h
      cases hxs : xs.mapM f with
      | error e =>
        rw [hxs] at h
        simp [Bind.bind, Except.bind] at h
      | ok bs =>
        rw [hxs] at h
        simp only [Bind.bind, Except.bind, pure, Except.pure, Except.ok.injEq] at h
        subst h
        rcases List.mem_cons.mp hb with rfl | hb'
        · exact ⟨x, List.mem_cons_self x xs, hfx⟩
        · obtain ⟨a, ha, hfa⟩ := ih bs hxs b hb'
          exact ⟨a, List.mem_cons_of_mem x ha, hfa⟩

/-- Every gene prior in the table (and the 0.001 default) lies strictly
between 0 and 1. -/
theorem geneticPrior_bounds (gene : String) :
    0 < (lookupAssoc geneticPriors gene).getD 0.001 ∧
    (lookupAssoc geneticPriors gene).getD 0.001 < 1 := by
  unfold lookupAssoc
  cases hf : geneticPriors.find? (fun p => p.1 == gene) with
  | none =>
    simp only [hf, Option.map_none', Option.getD_none]
    constructor <;> norm_num
  | some p =>
    obtain ⟨_, hmem⟩ := find?_pred_and_mem _ _ _ hf
    have hall : ∀ q ∈ geneticPriors, (0:ℚ) < q.2 ∧ q.2 < 1 := by
      with_unfolding_all decide
    simpa only [hf, Option.map_some', Option.getD_some] using hall p hmem

theorem foldl_posmul_pos (ls : List ℚ) :
    ∀ init : ℚ, 0 < init →
      0 < ls.foldl (fun acc l => if 0 < l then acc * l else acc) init := by
  induction ls with
  | nil => intro init h; simpa using h
  | cons l ls ih =>
    intro init h
    simp only [List.foldl_cons]
    by_cases hl : (0:ℚ) < l
    · rw [if_pos hl]; exact ih _ (mul_pos h hl)
    · rw [if_neg hl]; exact ih _ h

/-- The Bayesian posterior always lies strictly between 0 and 1 when the
prior does (the nonpositive likelihoods are filtered out by the source). -/
theorem bayesianUpdate_bounds (prior : ℚ) (ls : List ℚ)
    (h0 : 0 < prior) (h1 : prior < 1) :
    0 < bayesianUpdate prior ls ∧ bayesianUpdate prior ls < 1 := by
  unfold bayesianUpdate
  have hpp := foldl_posmul_pos ls 1 (by norm_num)
  have hodds : 0 < prior / (1 - prior) *
      ls.foldl (fun acc l => if 0 < l then acc * l else acc) 1 :=
    mul_pos (div_pos h0 (by linarith)) hpp
  constructor
  · exact div_pos hodds (by linarith)
  · rw [div_lt_one (by linarith)]
    linarith

/-- The confidence interval of a surfaced gene risk brackets the reported
(clamped) probability and lies inside [0, 1]. -/
theorem geneRisk_ci_of_surfaced {gene : String} {fh : FamilyHistory}
    {symptoms : List String} {demo : Demographics} {med : MedicalHistory}
    {r : GeneticRisk}
    (hok : calculateGeneSpecificRisk gene fh symptoms demo med = .ok r)
    (hsurf : (0.05:ℚ) < r.mutation_probability) :
    r.confidence_interval.1 ≤ r.mutation_probability ∧
    r.mutation_probability ≤ r.confidence_interval.2 ∧
    0 ≤ r.confidence_interval.1 ∧ r.confidence_interval.2 ≤ 1 := by
  unfold calculateGeneSpecificRisk at hok
  cases hd : calculateDemographicLikelihood gene demo with
  | error e =>
    rw [hd] at hok
    exact absurd hok (by simp [Bind.bind, Except.bind])
  | ok dl =>
    rw [hd] at hok
    simp only [Bind.bind, Except.bind, pure, Except.pure, Except.ok.injEq] at hok
    subst hok
    obtain ⟨hp0, hp1⟩ := bayesianUpdate_bounds
      ((lookupAssoc geneticPriors gene).getD 0.001)
      [calculateFamilyHistoryLikelihood gene fh, dl,
       calculateSymptomLikelihood gene symptoms,
       calculateMedicalHistoryLikelihood gene med]
      (geneticPrior_bounds gene).1 (geneticPrior_bounds gene).2
    set p := bayesianUpdate ((lookupAssoc geneticPriors gene).getD 0.001)
      [calculateFamilyHistoryLikelihood gene fh, dl,
       calculateSymptomLikelihood gene symptoms,
       calculateMedicalHistoryLikelihood gene med] with hpdef
    simp only [calculateConfidenceInterval] at hsurf ⊢
    have hp05 : (0.05:ℚ) < p := by
      have h := lt_of_lt_of_le hsurf (min_le_right _ _)
      exact (lt_max_iff.mp h).resolve_left (by norm_num)
    refine ⟨?_, ?_, ?_, ?_⟩ <;>
      simp only [min_def, max_def] <;> split_ifs <;> linarith

/-- C5: every gene risk surfaced by `calculate_genetic_risks` (probability
above 0.05) has a confidence interval bracketing its reported probability,
with both endpoints in [0, 1] — even though the interval is computed from
the unclamped posterior while the probability is clamped to
[0.001, 0.99]. -/
theorem C5_confidence_intervals (responses : List Response) (risks : List GeneticRisk)
    (hok : calculateGeneticRisks responses = .ok risks) :
    ∀ r ∈ risks,
      r.confidence_interval.1 ≤ r.mutation_probability ∧
      r.mutation_probability ≤ r.confidence_interval.2 ∧
      0 ≤ r.confidence_interval.1 ∧ r.confidence_interval.2 ≤ 1 := by
  unfold calculateGeneticRisks at hok
  dsimp only [] at hok
  cases hm : highRiskGenes.mapM (fun g => calculateGeneSpecificRisk g
      (extractFamilyHistory responses) (extractSymptoms responses)
      (extractDemographics responses) (extractMedicalHistory responses)) with
  | error e =>
    rw [hm] at hok
    exact absurd hok (by simp [Bind.bind, Except.bind])
  | ok all =>
    rw [hm] at hok
    simp only [Bind.bind, Except.bind, pure, Except.pure, Except.ok.injEq] at hok
    subst hok
    intro r hr
    have hr1 := List.take_subset _ _ hr
    rw [mem_sortByKeyDesc] at hr1
    obtain ⟨hmem, hfilt⟩ := List.mem_filter.mp hr1
    have hsurf : (0.05:ℚ) < r.mutation_probability := of_decide_eq_true hfilt
    obtain ⟨g, _, hgok⟩ := mapM_except_mem _ _ _ hm r hmem
    exact geneRisk_ci_of_surfaced hgok hsurf

set_option maxRecDepth 100000 in
theorem C5_witness :
    ∃ risks, calculateGeneticRisks
      [⟨some "family_cancer_types", Value.vlist ["Breast", "Ovarian", "Colorectal"]⟩,
       ⟨some "affected_relative", Value.vlist ["Mother", "Sister", "Aunt", "Uncle", "Cousin"]⟩,
       ⟨some "demo_age", Value.num 40⟩,
       ⟨some "ethnicity", Value.s "Ashkenazi Jewish"⟩] = .ok risks ∧
    risks ≠ [] ∧
    ∀ r ∈ risks,
      r.confidence_interval.1 ≤ r.mutation_probability ∧
      r.mutation_probability ≤ r.confidence_interval.2 ∧
      0 ≤ r.confidence_interval.1 ∧ r.confidence_interval.2 ≤ 1 := by
  with_unfolding_all
    have hne : calculateGeneticRisks
        [⟨some "family_cancer_types", Value.vlist ["Breast", "Ovarian", "Colorectal"]⟩,
         ⟨some "affected_relative", Value.vlist ["Mother", "Sister", "Aunt", "Uncle", "Cousin"]⟩,
         ⟨some "demo_age", Value.num 40⟩,
         ⟨some "ethnicity", Value.s "Ashkenazi Jewish"⟩] ≠ .ok [] := by decide
    obtain ⟨risks, h⟩ : ∃ risks, calculateGeneticRisks
        [⟨some "family_cancer_types", Value.vlist ["Breast", "Ovarian", "Colorectal"]⟩,
         ⟨some "affected_relative", Value.vlist ["Mother", "Sister", "Aunt", "Uncle", "Cousin"]⟩,
         ⟨some "demo_age", Value.num 40⟩,
         ⟨some "ethnicity", Value.s "Ashkenazi Jewish"⟩] = .ok risks := ⟨_, rfl⟩
    exact ⟨risks, h, fun hemp => hne (hemp ▸ h), C5_confidence_intervals _ _ h⟩

/-! ### The family-history boost scenario (C3) -/

/-- With a positive family-history answer, every bank question other than
`family_cancer_history` itself and the three follow-ups scores strictly
below `family_cancer_types`: its priority plus the boosts it can attain
stays at most 10, against at least 11 for `family_cancer_types`. -/
theorem score_lt_familyCancerTypes (resp : List Response) (Q : Question)
    (hans : responseMapGet resp "family_cancer_history" = Value.b true)
    (hQ : Q ∈ questionBank)
    (hne : Q.question_id ≠ "family_cancer_history")
    (hn1 : Q.question_id ≠ "family_cancer_types")
    (hn2 : Q.question_id ≠ "family_cancer_relatives")
    (hn3 : Q.question_id ≠ "family_early_onset") :
    scoreQuestion Q.question_id resp < scoreQuestion "family_cancer_types" resp := by
  have hlookup : ∀ Q0 ∈ questionBank, getQuestion Q0.question_id = some Q0 := by
    with_unfolding_all decide
  have hfct : getQuestion "family_cancer_types" = some familyCancerTypesQuestion := by
    with_unfolding_all decide
  have hb : Q.priority_weight +
      ((if Q.category == "family_history" then (2.0:ℚ) else 0) +
       (if Q.category == "lifestyle" || Q.category == "environmental" then (1.5:ℚ) else 0)) ≤ 10 := by
    have hball : ∀ Q0 ∈ questionBank,
        Q0.question_id = "family_cancer_history" ∨
        Q0.question_id = "family_cancer_types" ∨
        Q0.question_id = "family_cancer_relatives" ∨
        Q0.question_id = "family_early_onset" ∨
        Q0.priority_weight +
          ((if Q0.category == "family_history" then (2.0:ℚ) else 0) +
           (if Q0.category == "lifestyle" || Q0.category == "environmental" then (1.5:ℚ) else 0)) ≤ 10 := by
      with_unfolding_all decide
    rcases hball Q hQ with h | h | h | h | h
    · exact absurd h hne
    · exact absurd h hn1
    · exact absurd h hn2
    · exact absurd h hn3
    · exact h
  unfold scoreQuestion
  rw [hlookup Q hQ, hfct]
  unfold calculateRelevanceBoost
  rw [hans]
  simp only [show (Value.b true == Value.b true) = true from rfl,
    show (familyCancerTypesQuestion.category == "family_history") = true from rfl,
    show (familyCancerTypesQuestion.category == "lifestyle" ||
          familyCancerTypesQuestion.category == "environmental") = false from rfl,
    show hasGeneticAssociations familyCancerTypesQuestion = true from rfl,
    show familyCancerTypesQuestion.priority_weight = (9.0 : ℚ) from rfl,
    Bool.true_and, Bool.and_true, Bool.and_false, Bool.and_self,
    if_true, if_false]
  cases hg : hasGeneticAssociations Q with
  | true =>
    simp only [hg, Bool.and_true]
    cases hs : (responseMapGet resp "lifestyle_smoking" == Value.s "Current smoker" ||
        responseMapGet resp "lifestyle_smoking" == Value.s "Former smoker") with
    | true =>
      simp only [hs, Bool.true_and]
      split_ifs at hb ⊢ <;> first | contradiction | linarith
    | false =>
      simp only [hs, Bool.false_and, if_false]
      split_ifs at hb ⊢ <;> first | contradiction | linarith
  | false =>
    simp only [hg, Bool.and_false, if_false]
    cases hs : (responseMapGet resp "lifestyle_smoking" == Value.s "Current smoker" ||
        responseMapGet resp "lifestyle_smoking" == Value.s "Former smoker") with
    | true =>
      simp only [hs, Bool.true_and]
      split_ifs at hb ⊢ <;> first | contradiction | linarith
    | false =>
      simp only [hs, Bool.false_and, if_false]
      split_ifs at hb ⊢ <;> first | contradiction | linarith

/-- A follow-up question with the family-history skip condition and
dependency is a candidate once `family_cancer_history` has been answered
`true` and the question itself has not been asked. -/
theorem trio_candidate_aux (resp : List Response) (path : List String)
    (hans : responseMapGet resp "family_cancer_history" = Value.b true)
    (QL : Question) (hQL : QL ∈ questionBank)
    (hrel : isQuestionRelevant QL "genetic_screening" = true)
    (hdep : questionDependencies QL.question_id = ["family_cancer_history"])
    (hskip : QL.skip_conditions = [("family_cancer_history", Value.b false)])
    (hnp : QL.question_id ∉ path) :
    QL.question_id ∈ findCandidateQuestions "genetic_screening" resp path := by
  rw [mem_findCandidateQuestions]
  refine ⟨QL, hQL, ?_, rfl⟩
  unfold candidatePred
  have hc : path.contains QL.question_id = false := by simpa using hnp
  have hd : checkDependencies QL.question_id resp = true := by
    unfold checkDependencies
    rw [hdep]
    simp [responseMapHas_of_get hans (by decide)]
  have hs : shouldSkipQuestion QL resp = false := by
    unfold shouldSkipQuestion
    rw [hskip]
    simp only [List.any_cons, List.any_nil, Bool.or_false]
    rw [hans]
    rfl
  rw [hc, hrel, hd, hs]
  rfl

/-- C3: in a genetic-screening session where `family_cancer_history` has
been answered `true` (and is on the asked path) and the three family
follow-ups have not been asked, all three are candidates (none skipped)
and the selected next question is one of them — the +2.0 family-history
boost puts them above every other candidate. -/
theorem C3_family_boost_dominates (s : Session)
    (hvar : s.questionnaire_type = "genetic_screening")
    (hans : responseMapGet s.responses "family_cancer_history" = Value.b true)
    (hasked : "family_cancer_history" ∈ s.question_path)
    (h1 : "family_cancer_types" ∉ s.question_path)
    (h2 : "family_cancer_relatives" ∉ s.question_path)
    (h3 : "family_early_onset" ∉ s.question_path) :
    ("family_cancer_types" ∈
        findCandidateQuestions s.questionnaire_type s.responses s.question_path ∧
     "family_cancer_relatives" ∈
        findCandidateQuestions s.questionnaire_type s.responses s.question_path ∧
     "family_early_onset" ∈
        findCandidateQuestions s.questionnaire_type s.responses s.question_path) ∧
    ∃ q, getNextQuestionId s.questionnaire_type s.responses s.question_path = some q ∧
      (q = "family_cancer_types" ∨ q = "family_cancer_relatives" ∨
       q = "family_early_onset") := by
  rw [hvar]
  have hin1 : "family_cancer_types" ∈
      findCandidateQuestions "genetic_screening" s.responses s.question_path :=
    trio_candidate_aux _ _ hans familyCancerTypesQuestion
      (by with_unfolding_all decide) rfl rfl rfl h1
  have hin2 : "family_cancer_relatives" ∈
      findCandidateQuestions "genetic_screening" s.responses s.question_path :=
    trio_candidate_aux _ _ hans familyCancerRelativesQuestion
      (by with_unfolding_all decide) rfl rfl rfl h2
  have hin3 : "family_early_onset" ∈
      findCandidateQuestions "genetic_screening" s.responses s.question_path :=
    trio_candidate_aux _ _ hans familyEarlyOnsetQuestion
      (by with_unfolding_all decide) rfl rfl rfl h3
  refine ⟨⟨hin1, hin2, hin3⟩, ?_⟩
  rw [getNextQuestionId_eq_pyMaxBy]
  cases hmax : pyMaxBy (fun qid => scoreQuestion qid s.responses)
      (findCandidateQuestions "genetic_screening" s.responses s.question_path) with
  | none =>
    rw [pyMaxBy_eq_none_iff] at hmax
    rw [hmax] at hin1
    exact absurd hin1 (List.not_mem_nil _)
  | some q =>
    refine ⟨q, rfl, ?_⟩
    by_contra hq
    push_neg at hq
    obtain ⟨hq1, hq2, hq3⟩ := hq
    have hqmem := pyMaxBy_mem _ _ _ hmax
    have hqmax := pyMaxBy_le _ _ _ hmax _ hin1
    obtain ⟨Q, hQbank, hQpred, hQid⟩ := mem_findCandidateQuestions.mp hqmem
    have hqfch : q ≠ "family_cancer_history" := by
      intro hcontra
      have hcont : s.question_path.contains Q.question_id = true := by
        rw [hQid, hcontra]
        exact List.elem_iff.mpr hasked
      unfold candidatePred at hQpred
      rw [hcont] at hQpred
      simp at hQpred
    have hlt := score_lt_familyCancerTypes s.responses Q hans hQbank
      (hQid ▸ hqfch) (hQid ▸ hq1) (hQid ▸ hq2) (hQid ▸ hq3)
    rw [hQid] at hlt
    exact absurd hqmax (not_le_of_lt hlt)

theorem C3_witness :
    ("family_cancer_types" ∈ findCandidateQuestions
        ({ createSession "genetic_screening" "sid" with
            responses := [⟨some "family_cancer_history", Value.b true⟩],
            question_path := ["family_cancer_history"] } : Session).questionnaire_type
        ({ createSession "genetic_screening" "sid" with
            responses := [⟨some "family_cancer_history", Value.b true⟩],
            question_path := ["family_cancer_history"] } : Session).responses
        ({ createSession "genetic_screening" "sid" with
            responses := [⟨some "family_cancer_history", Value.b true⟩],
            question_path := ["family_cancer_history"] } : Session).question_path ∧
     "family_cancer_relatives" ∈ findCandidateQuestions "genetic_screening"
        [⟨some "family_cancer_history", Value.b true⟩] ["family_cancer_history"] ∧
     "family_early_onset" ∈ findCandidateQuestions "genetic_screening"
        [⟨some "family_cancer_history", Value.b true⟩] ["family_cancer_history"]) ∧
    ∃ q, getNextQuestionId "genetic_screening"
        [⟨some "family_cancer_history", Value.b true⟩] ["family_cancer_history"] = some q ∧
      (q = "family_cancer_types" ∨ q = "family_cancer_relatives" ∨
       q = "family_early_onset") :=
  C3_family_boost_dominates
    { createSession "genetic_screening" "sid" with
        responses := [⟨some "family_cancer_history", Value.b true⟩],
        question_path := ["family_cancer_history"] }
    rfl (by decide) (by decide) (by decide) (by decide) (by decide)

end ECT
